import Mathlib

/-!
# Two-colour light panel: brightness tracker and announcement arbiter

A shallow embedding of `Src/main/ui/ui_light_2color.c` (with the sound
catalogue of `Src/main/app_audio.h`).

* The file-scope globals of the C file are the fields of `Sys`.
* `uint8_t` and `uint32_t` values are natural numbers, reduced modulo `2^8` and
  `2^32` at the places where the C code stores or passes them.
* Calls into LVGL, the board support package, the audio subsystem and FreeRTOS
  are recorded, in program order, in `Sys.log`; those with an effect on state
  the program reads back (hidden flags, image sources, label text, the mutex,
  the event group, the created tasks and their handles) also update that state.
* The UI callbacks run to completion on the UI task, so they are functions
  `Sys → Sys`.  The announcement workers and the dispatch loop are FreeRTOS
  tasks; each has a program counter and advances by one call at a time, so that
  a schedule (`List Label`) describes an interleaving.
-/

namespace Light2Color

/-! ## Data model -/

/-- The enumerators of `LIGHT_CCK_TYPE`, as the integers C gives them. -/
def LIGHT_CCK_WARM : Nat := 0

/-- Second enumerator of `LIGHT_CCK_TYPE`. -/
def LIGHT_CCK_COOL : Nat := 1

/-- Third enumerator of `LIGHT_CCK_TYPE`; used only as the initial shadow value. -/
def LIGHT_CCK_MAX : Nat := 2

/-- The struct `light_set_attribute_t`: `light_pwm` is a `uint8_t`, `light_cck`
a `LIGHT_CCK_TYPE` held as its integer value. -/
structure light_set_attribute_t where
  light_pwm : Nat
  light_cck : Nat
deriving DecidableEq, Repr

/-- The enum `PDM_SOUND_TYPE` of `app_audio.h`. -/
inductive PDM_SOUND_TYPE where
  | SOUND_TYPE_KNOB
  | SOUND_TYPE_SNORE
  | SOUND_TYPE_WASH_END_CN
  | SOUND_TYPE_WASH_END_EN
  | SOUND_TYPE_FACTORY
  | SOUND_TYPE_LIGHT0
  | SOUND_TYPE_LIGHT25
  | SOUND_TYPE_LIGHT50
  | SOUND_TYPE_LIGHT75
  | SOUND_TYPE_LIGHT100
deriving DecidableEq, Repr

/-- The five announcement task functions `Light_0` .. `Light_100`. -/
inductive TaskFn where
  | Light_0
  | Light_25
  | Light_50
  | Light_75
  | Light_100
deriving DecidableEq, Repr

/-- The five global task handle variables `xtaskHandle` .. `xtaskHandle5`. -/
inductive HandleVar where
  | xtaskHandle
  | xtaskHandle2
  | xtaskHandle3
  | xtaskHandle4
  | xtaskHandle5
deriving DecidableEq, Repr

/-- The image assets named by the C file (`lv_example_image.h`). -/
inductive ImgSrc where
  | light_warm_bg
  | light_cool_bg
  | light_warm_25
  | light_cool_25
  | light_warm_50
  | light_cool_50
  | light_warm_75
  | light_cool_75
  | light_warm_100
  | light_cool_100
  | light_close_status
  | light_close_bg
deriving DecidableEq, Repr

/-- The image widgets of the page. -/
inductive Img where
  | img_light_bg
  | img_light_pwm_0
  | img_light_pwm_25
  | img_light_pwm_50
  | img_light_pwm_75
  | img_light_pwm_100
deriving DecidableEq, Repr

/-- What the program reads or writes of an LVGL image object: the flag
`LV_OBJ_FLAG_HIDDEN` and the source.  A source of `none` stands for a pointer
read past the end of a two-element table of `light_image`. -/
structure lv_img where
  hidden : Bool
  src : Option ImgSrc
deriving DecidableEq, Repr

/-- `Light_0_ID = (1 << 0)`. -/
def Light_0_ID : Nat := 1 <<< 0

/-- `Light_25_ID = (1 << 1)`. -/
def Light_25_ID : Nat := 1 <<< 1

/-- `Light_50_ID = (1 << 2)`. -/
def Light_50_ID : Nat := 1 <<< 2

/-- `Light_75_ID = (1 << 3)`. -/
def Light_75_ID : Nat := 1 <<< 3

/-- `Light_100_ID = (1 << 4)`. -/
def Light_100_ID : Nat := 1 <<< 4

/-- `All_Task_Bits`, the union of the five flag bits. -/
def All_Task_Bits : Nat :=
  Light_0_ID ||| Light_25_ID ||| Light_50_ID ||| Light_75_ID ||| Light_100_ID

/-- The table `light_image.img_bg`. -/
def img_bg : List ImgSrc := [.light_warm_bg, .light_cool_bg]

/-- The table `light_image.img_pwm_25`. -/
def img_pwm_25 : List ImgSrc := [.light_warm_25, .light_cool_25]

/-- The table `light_image.img_pwm_50`. -/
def img_pwm_50 : List ImgSrc := [.light_warm_50, .light_cool_50]

/-- The table `light_image.img_pwm_75`. -/
def img_pwm_75 : List ImgSrc := [.light_warm_75, .light_cool_75]

/-- The table `light_image.img_pwm_100`. -/
def img_pwm_100 : List ImgSrc := [.light_warm_100, .light_cool_100]

/-- The identity of a FreeRTOS task of the announcement mechanism: the dispatch
loop, or the worker created as the `i`-th task. -/
inductive TaskRef where
  | dispatcher
  | worker (i : Nat)
deriving DecidableEq, Repr

/-- The program counter of a worker `Light_k`: the call it makes next, or that
it is inside the blocking call `audio_handle_info`, or how it ended. -/
inductive WorkerPC where
  | atTake
  | atAudio
  | inAudio
  | atGive
  | atDelete
  | deleted
  | returned
deriving DecidableEq, Repr

/-- One created worker task: its task function and its program counter. -/
structure Worker where
  fn : TaskFn
  pc : WorkerPC
deriving DecidableEq, Repr

/-- The program counter of `Announce_Light_Lvl` within one iteration of its
`while(1)`; the five `if` statements carry the local `xbits`. -/
inductive DispatchPC where
  | atTake
  | atWait
  | if0 (xbits : Nat)
  | if25 (xbits : Nat)
  | if50 (xbits : Nat)
  | if75 (xbits : Nat)
  | if100 (xbits : Nat)
  | atGive
deriving DecidableEq, Repr

/-- The calls the modelled functions make to code outside the file. -/
inductive Call where
  | bsp_led_rgb_set (r g b : Nat)
  | lv_obj_add_flag_HIDDEN (o : Img)
  | lv_obj_clear_flag_HIDDEN (o : Img)
  | lv_label_set_text (text : String)
  | lv_img_set_src (o : Img) (src : Option ImgSrc)
  | lv_group_set_editing
  | lv_indev_wait_release
  | ui_remove_all_objs_from_encoder_group
  | lv_func_goto_layer_menu
  | xEventGroupSetBits (bits : Nat)
  | xEventGroupWaitBits (returned : Nat)
  | xTaskCreate (fn : TaskFn) (handle : HandleVar)
  | xSemaphoreTake (caller : TaskRef)
  | xSemaphoreGive (caller : TaskRef)
  | audio_handle_info (caller : TaskRef) (voice : PDM_SOUND_TYPE)
  | vTaskDelete (caller : TaskRef) (handle : Option Nat)
deriving DecidableEq, Repr

/-- The globals of `ui_light_2color.c`, the FreeRTOS objects they refer to,
and the log of outside calls. -/
structure Sys where
  light_set_conf : light_set_attribute_t
  light_xor : light_set_attribute_t
  img_light_bg : lv_img
  img_light_pwm_0 : lv_img
  img_light_pwm_25 : lv_img
  img_light_pwm_50 : lv_img
  img_light_pwm_75 : lv_img
  img_light_pwm_100 : lv_img
  label_pwm_set : String
  /-- The holder of `xMutex`, `none` when the mutex is free. -/
  xMutex : Option TaskRef
  /-- The bits of the event group `AnnounceGroup`. -/
  AnnounceGroup : Nat
  /-- Every worker task created so far, in creation order; a worker is
  identified by its position. -/
  tasks : List Worker
  xtaskHandle : Option Nat
  xtaskHandle2 : Option Nat
  xtaskHandle3 : Option Nat
  xtaskHandle4 : Option Nat
  xtaskHandle5 : Option Nat
  dispatcher : DispatchPC
  log : List Call

/-! ## Outside calls -/

/-- Append a call to the log. -/
@[simp]
def Sys.emit (s : Sys) (c : Call) : Sys :=
  { s with log := s.log ++ [c] }

/-- Read an image widget. -/
@[simp]
def Sys.img (s : Sys) : Img → lv_img
  | .img_light_bg => s.img_light_bg
  | .img_light_pwm_0 => s.img_light_pwm_0
  | .img_light_pwm_25 => s.img_light_pwm_25
  | .img_light_pwm_50 => s.img_light_pwm_50
  | .img_light_pwm_75 => s.img_light_pwm_75
  | .img_light_pwm_100 => s.img_light_pwm_100

/-- Write an image widget. -/
@[simp]
def Sys.setImg (s : Sys) : Img → lv_img → Sys
  | .img_light_bg, v => { s with img_light_bg := v }
  | .img_light_pwm_0, v => { s with img_light_pwm_0 := v }
  | .img_light_pwm_25, v => { s with img_light_pwm_25 := v }
  | .img_light_pwm_50, v => { s with img_light_pwm_50 := v }
  | .img_light_pwm_75, v => { s with img_light_pwm_75 := v }
  | .img_light_pwm_100, v => { s with img_light_pwm_100 := v }

/-- Read a task handle variable. -/
def Sys.handle (s : Sys) : HandleVar → Option Nat
  | .xtaskHandle => s.xtaskHandle
  | .xtaskHandle2 => s.xtaskHandle2
  | .xtaskHandle3 => s.xtaskHandle3
  | .xtaskHandle4 => s.xtaskHandle4
  | .xtaskHandle5 => s.xtaskHandle5

/-- Write a task handle variable. -/
def Sys.setHandle (s : Sys) : HandleVar → Option Nat → Sys
  | .xtaskHandle, v => { s with xtaskHandle := v }
  | .xtaskHandle2, v => { s with xtaskHandle2 := v }
  | .xtaskHandle3, v => { s with xtaskHandle3 := v }
  | .xtaskHandle4, v => { s with xtaskHandle4 := v }
  | .xtaskHandle5, v => { s with xtaskHandle5 := v }

/-- The call `bsp_led_rgb_set(r, g, b)`: the three parameters are `uint8_t`, so each
argument is converted modulo 256. -/
@[simp]
def bsp_led_rgb_set (r g b : Nat) (s : Sys) : Sys :=
  s.emit (.bsp_led_rgb_set (r % 256) (g % 256) (b % 256))

/-- The call `lv_obj_add_flag(o, LV_OBJ_FLAG_HIDDEN)`. -/
@[simp]
def lv_obj_add_flag_HIDDEN (o : Img) (s : Sys) : Sys :=
  (s.setImg o { s.img o with hidden := true }).emit (.lv_obj_add_flag_HIDDEN o)

/-- The call `lv_obj_clear_flag(o, LV_OBJ_FLAG_HIDDEN)`. -/
@[simp]
def lv_obj_clear_flag_HIDDEN (o : Img) (s : Sys) : Sys :=
  (s.setImg o { s.img o with hidden := false }).emit (.lv_obj_clear_flag_HIDDEN o)

/-- The call `lv_img_set_src(o, src)`. -/
@[simp]
def lv_img_set_src (o : Img) (src : Option ImgSrc) (s : Sys) : Sys :=
  (s.setImg o { s.img o with src := src }).emit (.lv_img_set_src o src)

/-- The call `lv_label_set_text(label_pwm_set, text)`. -/
@[simp]
def lv_label_set_text (text : String) (s : Sys) : Sys :=
  { s with label_pwm_set := text }.emit (.lv_label_set_text text)

/-- The call `lv_label_set_text_fmt(label_pwm_set, "%d%%", n)`: the decimal digits of
`n` followed by a percent sign. -/
@[simp]
def lv_label_set_text_fmt (n : Nat) (s : Sys) : Sys :=
  lv_label_set_text (toString n ++ "%") s

/-- The call `xEventGroupSetBits(AnnounceGroup, bits)`. -/
@[simp]
def xEventGroupSetBits (bits : Nat) (s : Sys) : Sys :=
  { s with AnnounceGroup := s.AnnounceGroup ||| bits }.emit (.xEventGroupSetBits bits)

/-- The call `xTaskCreate(fn, name, 2048, NULL, 3, &h)`: a new task that has not run
yet is created and its handle stored in `h`. -/
@[simp]
def xTaskCreate (fn : TaskFn) (h : HandleVar) (s : Sys) : Sys :=
  ({ s with tasks := s.tasks ++ [Worker.mk fn .atTake] }.setHandle h (some s.tasks.length)).emit
    (.xTaskCreate fn h)

/-- The value `xEventGroupWaitBits(AnnounceGroup, mask, pdTRUE, pdFALSE, t)` leaves in
the event group once it returns: when a waited bit is set the waited bits are
cleared (`uxEventBits &= ~mask` on 32-bit `EventBits_t`), on a timeout nothing
is cleared. -/
def clearOnExit (group mask : Nat) : Nat :=
  if group &&& mask ≠ 0 then group &&& (0xFFFFFFFF ^^^ mask) else group

/-! ## The UI callbacks -/

/-- The LVGL event codes the callback is registered for, and any other code. -/
inductive lv_event_code_t where
  | LV_EVENT_FOCUSED
  | LV_EVENT_KEY
  | LV_EVENT_CLICKED
  | LV_EVENT_LONG_PRESSED
  | LV_EVENT_OTHER
deriving DecidableEq, Repr

/-- The key code `LV_KEY_RIGHT` of `lvgl.h`. -/
def LV_KEY_RIGHT : Nat := 19

/-- The key code `LV_KEY_LEFT` of `lvgl.h`. -/
def LV_KEY_LEFT : Nat := 20

/-- The state `ui_light_2color_init` leaves: the shadow copy forced to differ
(`0xFF`, `LIGHT_CCK_MAX`), brightness 100 and warm, the widgets as created (an
LVGL object is created without `LV_OBJ_FLAG_HIDDEN`; the flag is added to
`img_light_pwm_0`, `img_light_pwm_75` and `img_light_pwm_100` only), a fresh
mutex and a fresh event group.  The task handles are the `NULL` of their
definitions, the dispatch loop has not run and the log starts empty. -/
def ui_light_2color_init : Sys :=
  { light_xor := { light_pwm := 0xFF, light_cck := LIGHT_CCK_MAX }
    light_set_conf := { light_pwm := 100, light_cck := LIGHT_CCK_WARM }
    img_light_bg := { hidden := false, src := some .light_warm_bg }
    label_pwm_set := toString 100 ++ "%"
    img_light_pwm_0 := { hidden := true, src := some .light_close_status }
    img_light_pwm_25 := { hidden := false, src := some .light_warm_25 }
    img_light_pwm_50 := { hidden := false, src := some .light_warm_50 }
    img_light_pwm_75 := { hidden := true, src := some .light_warm_75 }
    img_light_pwm_100 := { hidden := true, src := some .light_warm_100 }
    xMutex := none
    AnnounceGroup := 0
    tasks := []
    xtaskHandle := none
    xtaskHandle2 := none
    xtaskHandle3 := none
    xtaskHandle4 := none
    xtaskHandle5 := none
    dispatcher := .atTake
    log := [] }

/-- The callback `light_2color_event_cb`.  `code` is `lv_event_get_code(e)`, `key` is
`lv_event_get_key(e)` and `timed_out` is what `is_time_out(&time_500ms)` returns.
The `uint8_t` field is stored modulo 256 (`light_pwm` is below 256, so
`light_pwm - 25` modulo 256 is `light_pwm + 256 - 25` modulo 256). -/
def light_2color_event_cb (code : lv_event_code_t) (key : Nat) (timed_out : Bool)
    (s : Sys) : Sys :=
  if code = .LV_EVENT_FOCUSED then
    s.emit .lv_group_set_editing
  else if code = .LV_EVENT_KEY then
    if timed_out then
      if LV_KEY_RIGHT = key ∧ s.light_set_conf.light_pwm < 100 then
        { s with light_set_conf :=
            { s.light_set_conf with light_pwm := (s.light_set_conf.light_pwm + 25) % 256 } }
      else if LV_KEY_LEFT = key ∧ s.light_set_conf.light_pwm > 0 then
        { s with light_set_conf :=
            { s.light_set_conf with
              light_pwm := (s.light_set_conf.light_pwm + 256 - 25) % 256 } }
      else s
    else s
  else if code = .LV_EVENT_CLICKED then
    { s with light_set_conf :=
        { s.light_set_conf with
          light_cck :=
            if s.light_set_conf.light_cck = LIGHT_CCK_WARM then LIGHT_CCK_COOL
            else LIGHT_CCK_WARM } }
  else if code = .LV_EVENT_LONG_PRESSED then
    ((s.emit .lv_indev_wait_release).emit .ui_remove_all_objs_from_encoder_group).emit
      .lv_func_goto_layer_menu
  else s

/-- The value the timer callback assigns to the `uint32_t RGB_color` from the
shadow copy: three channels packed by shifts, the blue channel scaled from
`0xFF` when cool and from `0x33` otherwise. -/
def RGB_color (light_xor : light_set_attribute_t) : Nat :=
  if LIGHT_CCK_COOL = light_xor.light_cck then
    (((0xFF * light_xor.light_pwm / 100) <<< 16) ||| ((0xFF * light_xor.light_pwm / 100) <<< 8)
      ||| (0xFF * light_xor.light_pwm / 100)) % 2 ^ 32
  else
    (((0xFF * light_xor.light_pwm / 100) <<< 16) ||| ((0xFF * light_xor.light_pwm / 100) <<< 8)
      ||| (0x33 * light_xor.light_pwm / 100)) % 2 ^ 32

/-- The `switch (light_xor.light_pwm)` of the timer callback; `cck_set` is the local
`(uint8_t)light_xor.light_cck`. -/
def switch_light_pwm (cck_set : Nat) (s : Sys) : Sys :=
  if s.light_xor.light_pwm = 100 then
    s |> lv_obj_clear_flag_HIDDEN .img_light_pwm_100
      |> lv_img_set_src .img_light_pwm_100 img_pwm_100[cck_set]?
      |> xEventGroupSetBits Light_100_ID
      |> xTaskCreate .Light_100 .xtaskHandle5
  else if s.light_xor.light_pwm = 75 then
    s |> lv_obj_clear_flag_HIDDEN .img_light_pwm_75
      |> lv_img_set_src .img_light_pwm_75 img_pwm_75[cck_set]?
      |> xEventGroupSetBits Light_75_ID
      |> xTaskCreate .Light_75 .xtaskHandle4
  else if s.light_xor.light_pwm = 50 then
    s |> lv_obj_clear_flag_HIDDEN .img_light_pwm_50
      |> lv_img_set_src .img_light_pwm_50 img_pwm_50[cck_set]?
      |> xEventGroupSetBits Light_50_ID
      |> xTaskCreate .Light_50 .xtaskHandle3
  else if s.light_xor.light_pwm = 25 then
    s |> lv_obj_clear_flag_HIDDEN .img_light_pwm_25
      |> lv_img_set_src .img_light_pwm_25 img_pwm_25[cck_set]?
      |> lv_img_set_src .img_light_bg img_bg[cck_set]?
      |> xEventGroupSetBits Light_25_ID
      |> xTaskCreate .Light_25 .xtaskHandle2
  else if s.light_xor.light_pwm = 0 then
    s |> lv_obj_clear_flag_HIDDEN .img_light_pwm_0
      |> lv_img_set_src .img_light_bg (some .light_close_bg)
      |> xEventGroupSetBits Light_0_ID
      |> xTaskCreate .Light_0 .xtaskHandle
  else s

/-- The body of the `if` of the timer callback that detected a change, up to the
`switch`: copy the live state into the shadow copy, set the LED, hide the five
step images, write the label. -/
def timer_cb_before_switch (s : Sys) : Sys :=
  let s : Sys := { s with light_xor :=
    { light_pwm := s.light_set_conf.light_pwm, light_cck := s.light_set_conf.light_cck } }
  let s := bsp_led_rgb_set ((RGB_color s.light_xor >>> 16) &&& 0xFF)
    ((RGB_color s.light_xor >>> 8) &&& 0xFF) (RGB_color s.light_xor) s
  let s := s |> lv_obj_add_flag_HIDDEN .img_light_pwm_100
    |> lv_obj_add_flag_HIDDEN .img_light_pwm_75
    |> lv_obj_add_flag_HIDDEN .img_light_pwm_50
    |> lv_obj_add_flag_HIDDEN .img_light_pwm_25
    |> lv_obj_add_flag_HIDDEN .img_light_pwm_0
  if s.light_set_conf.light_pwm ≠ 0 then lv_label_set_text_fmt s.light_set_conf.light_pwm s
  else lv_label_set_text "--" s

/-- The body of the `if` of the timer callback that detected a change: the part
before the `switch`, then the `switch` with `cck_set = (uint8_t)light_xor.light_cck`. -/
def timer_cb_changed (s : Sys) : Sys :=
  switch_light_pwm ((timer_cb_before_switch s).light_xor.light_cck % 256)
    (timer_cb_before_switch s)

/-- The callback `light_2color_layer_timer_cb`.  `due` is what `is_time_out(&time_20ms)`
returns; `feed_clock_time` and `is_time_out` belong to the timing source and are
not logged. -/
def light_2color_layer_timer_cb (due : Bool) (s : Sys) : Sys :=
  if due then
    if (s.light_set_conf.light_pwm ^^^ s.light_xor.light_pwm) ≠ 0
        ∨ (s.light_set_conf.light_cck ^^^ s.light_xor.light_cck) ≠ 0 then
      timer_cb_changed s
    else s
  else s

/-! ## The FreeRTOS tasks -/

/-- The sound each task function passes to `audio_handle_info`. -/
def TaskFn.voice : TaskFn → PDM_SOUND_TYPE
  | .Light_0 => .SOUND_TYPE_LIGHT0
  | .Light_25 => .SOUND_TYPE_LIGHT25
  | .Light_50 => .SOUND_TYPE_LIGHT50
  | .Light_75 => .SOUND_TYPE_LIGHT75
  | .Light_100 => .SOUND_TYPE_LIGHT100

/-- The handle variable each task function passes to `vTaskDelete`. -/
def TaskFn.handleVar : TaskFn → HandleVar
  | .Light_0 => .xtaskHandle
  | .Light_25 => .xtaskHandle2
  | .Light_50 => .xtaskHandle3
  | .Light_75 => .xtaskHandle4
  | .Light_100 => .xtaskHandle5

/-- Set the program counter of worker `i`. -/
@[simp]
def Sys.setPC (s : Sys) (i : Nat) (pc : WorkerPC) : Sys :=
  { s with tasks := s.tasks.modify (fun w => { w with pc := pc }) i }

/-- The call `vTaskDelete(h)` made by worker `i`, as the last statement of its task
function.  A `NULL` handle, or the handle of the caller, deletes the caller.
Any other handle deletes the task it refers to, whatever that task is doing, and
the caller then runs off the end of its task function and executes nothing
more of this program. -/
def vTaskDelete (i : Nat) (h : Option Nat) (s : Sys) : Sys :=
  match h with
  | none => (s.setPC i .deleted).emit (.vTaskDelete (.worker i) h)
  | some j =>
    if j = i then (s.setPC i .deleted).emit (.vTaskDelete (.worker i) h)
    else ((s.setPC j .deleted).setPC i .returned).emit (.vTaskDelete (.worker i) h)

/-- One call of worker `i`, running `Light_0` .. `Light_100` (the five bodies differ
only in the sound and the handle variable).  `xSemaphoreTake(xMutex, portMAX_DELAY)`
returns, with true, only once the mutex is free; until then the worker stays
blocked.  `result` is what `audio_handle_info` returns; the code does not read it.
A worker that does not exist or has ended does nothing. -/
def workerStep (i : Nat) (_result : Int) (s : Sys) : Sys :=
  match s.tasks[i]? with
  | none => s
  | some w =>
    match w.pc with
    | .atTake =>
      if s.xMutex = none then
        ({ s with xMutex := some (.worker i) }.setPC i .atAudio).emit (.xSemaphoreTake (.worker i))
      else s
    | .atAudio => (s.setPC i .inAudio).emit (.audio_handle_info (.worker i) w.fn.voice)
    | .inAudio => s.setPC i .atGive
    | .atGive =>
      ({ s with xMutex := none }.setPC i .atDelete).emit (.xSemaphoreGive (.worker i))
    | .atDelete => vTaskDelete i (s.handle w.fn.handleVar) s
    | .deleted => s
    | .returned => s

/-- One call of the dispatch loop `Announce_Light_Lvl`.  `xSemaphoreTake` blocks until
the mutex is free.  `xEventGroupWaitBits` returns the value of the event group
when a waited bit is set or the wait of `100 / portTICK_PERIOD_MS` ticks is over,
clearing on exit; the mutex is held all the while. -/
def dispatcherStep (s : Sys) : Sys :=
  match s.dispatcher with
  | .atTake =>
    if s.xMutex = none then
      { s with xMutex := some .dispatcher, dispatcher := .atWait }.emit
        (.xSemaphoreTake .dispatcher)
    else s
  | .atWait =>
    { s with AnnounceGroup := clearOnExit s.AnnounceGroup All_Task_Bits,
             dispatcher := .if0 s.AnnounceGroup }.emit (.xEventGroupWaitBits s.AnnounceGroup)
  | .if0 xbits =>
    if xbits &&& Light_0_ID ≠ 0 then
      xTaskCreate .Light_0 .xtaskHandle { s with dispatcher := .if25 xbits }
    else { s with dispatcher := .if25 xbits }
  | .if25 xbits =>
    if xbits &&& Light_25_ID ≠ 0 then
      xTaskCreate .Light_25 .xtaskHandle2 { s with dispatcher := .if50 xbits }
    else { s with dispatcher := .if50 xbits }
  | .if50 xbits =>
    if xbits &&& Light_50_ID ≠ 0 then
      xTaskCreate .Light_50 .xtaskHandle3 { s with dispatcher := .if75 xbits }
    else { s with dispatcher := .if75 xbits }
  | .if75 xbits =>
    if xbits &&& Light_75_ID ≠ 0 then
      xTaskCreate .Light_75 .xtaskHandle4 { s with dispatcher := .if100 xbits }
    else { s with dispatcher := .if100 xbits }
  | .if100 xbits =>
    if xbits &&& Light_100_ID ≠ 0 then
      xTaskCreate .Light_100 .xtaskHandle5 { s with dispatcher := .atGive }
    else { s with dispatcher := .atGive }
  | .atGive =>
    { s with xMutex := none, dispatcher := .atTake }.emit (.xSemaphoreGive .dispatcher)

/-- What the scheduler can run next: an input event on the UI task, a timer
callback on the UI task, one call of a worker, one call of the dispatch loop.
`setBits` and `create` stand for the two FreeRTOS calls of the timer callback
(`xEventGroupSetBits` and `xTaskCreate`) taking effect one at a time, which is what the
other tasks see when the UI task is preempted inside the callback. -/
inductive Label where
  | event (code : lv_event_code_t) (key : Nat) (timed_out : Bool)
  | timer (due : Bool)
  | worker (i : Nat) (result : Int)
  | dispatcher
  | setBits (bits : Nat)
  | create (fn : TaskFn)
deriving DecidableEq, Repr

/-- One scheduling step. -/
def step (s : Sys) : Label → Sys
  | .event code key timed_out => light_2color_event_cb code key timed_out s
  | .timer due => light_2color_layer_timer_cb due s
  | .worker i result => workerStep i result s
  | .dispatcher => dispatcherStep s
  | .setBits bits => xEventGroupSetBits bits s
  | .create fn => xTaskCreate fn fn.handleVar s

/-- Run a schedule from a state. -/
def run (schedule : List Label) (s : Sys) : Sys :=
  schedule.foldl step s

/-- One wake of the dispatch loop running undisturbed: the eight calls of one
iteration of its `while(1)`. -/
def wake (s : Sys) : Sys :=
  run (List.replicate 8 .dispatcher) s

/-- A worker running undisturbed from creation to its end: its five steps, the
audio call returning `result`. -/
def runWorker (i : Nat) (result : Int) (s : Sys) : Sys :=
  run (List.replicate 5 (.worker i result)) s

/-! ## Observations on the log -/

/-- The calls a state has logged beyond the first `n`. -/
def Sys.callsSince (s : Sys) (n : Nat) : List Call :=
  s.log.drop n

/-- The flag arguments of the `xEventGroupSetBits` calls of a list of calls. -/
def flagsSet (calls : List Call) : List Nat :=
  calls.filterMap fun c =>
    match c with
    | .xEventGroupSetBits bits => some bits
    | _ => none

/-- The task functions of the `xTaskCreate` calls of a list of calls. -/
def spawned (calls : List Call) : List TaskFn :=
  calls.filterMap fun c =>
    match c with
    | .xTaskCreate fn _ => some fn
    | _ => none

/-- The arguments of the `bsp_led_rgb_set` calls of a list of calls. -/
def ledCalls (calls : List Call) : List (Nat × Nat × Nat) :=
  calls.filterMap fun c =>
    match c with
    | .bsp_led_rgb_set r g b => some (r, g, b)
    | _ => none

/-- The LVGL calls (hidden flags, label text, image sources) of a list of calls. -/
def renderCalls (calls : List Call) : List Call :=
  calls.filter fun c =>
    match c with
    | .lv_obj_add_flag_HIDDEN _ => true
    | .lv_obj_clear_flag_HIDDEN _ => true
    | .lv_label_set_text _ => true
    | .lv_img_set_src _ _ => true
    | _ => false

/-- The sounds of the `audio_handle_info` calls of a list of calls. -/
def played (calls : List Call) : List PDM_SOUND_TYPE :=
  calls.filterMap fun c =>
    match c with
    | .audio_handle_info _ voice => some voice
    | _ => none

/-- The flag paired with each task function: the one `Announce_Light_Lvl` tests before
creating it, and the one the timer callback sets before creating it. -/
def TaskFn.flag : TaskFn → Nat
  | .Light_0 => Light_0_ID
  | .Light_25 => Light_25_ID
  | .Light_50 => Light_50_ID
  | .Light_75 => Light_75_ID
  | .Light_100 => Light_100_ID

/-- The task functions whose flag is set in `xbits`, in the order of the five `if`
statements of `Announce_Light_Lvl`. -/
def flagged (xbits : Nat) : List TaskFn :=
  [TaskFn.Light_0, .Light_25, .Light_50, .Light_75, .Light_100].filter
    fun fn => xbits &&& fn.flag ≠ 0

/-- The task function the `switch` of the timer callback creates for a brightness;
`none` for the `default` case. -/
def announcerOf (light_pwm : Nat) : Option TaskFn :=
  if light_pwm = 100 then some .Light_100
  else if light_pwm = 75 then some .Light_75
  else if light_pwm = 50 then some .Light_50
  else if light_pwm = 25 then some .Light_25
  else if light_pwm = 0 then some .Light_0
  else none

/-- The step images that do not carry `LV_OBJ_FLAG_HIDDEN`. -/
def visible (s : Sys) : List Img :=
  [Img.img_light_pwm_0, .img_light_pwm_25, .img_light_pwm_50, .img_light_pwm_75,
    .img_light_pwm_100].filter fun o => !(s.img o).hidden

/-- The workers that are inside the blocking call `audio_handle_info`. -/
def inAudio (s : Sys) : List Nat :=
  (List.range s.tasks.length).filter fun i =>
    match s.tasks[i]? with
    | some w => w.pc = .inAudio
    | none => false

/-! ## The mutex discipline -/

/-- A worker holds `xMutex` at these program counters: between the return of its
`xSemaphoreTake` and its `xSemaphoreGive`. -/
def WorkerPC.holding : WorkerPC → Bool
  | .atAudio => true
  | .inAudio => true
  | .atGive => true
  | _ => false

/-- The mutex discipline on the three components it concerns: a worker between
take and give is the holder of the mutex, and so is the dispatch loop anywhere
but at the top of its loop. -/
def Disciplined (tasks : List Worker) (xMutex : Option TaskRef) (dispatcher : DispatchPC) :
    Prop :=
  (∀ i w, tasks[i]? = some w → w.pc.holding = true → xMutex = some (.worker i))
  ∧ (dispatcher ≠ .atTake → xMutex = some .dispatcher)

/-- The mutex discipline of a state. -/
def MutexInv (s : Sys) : Prop :=
  Disciplined s.tasks s.xMutex s.dispatcher

/-- A schedule that brings two workers of the same brightness to the audio call: the
first tick, one wake of the dispatch loop, two calls of the worker the tick
created (take, then enter `audio_handle_info`), two calls of the worker the wake
created. -/
def twoAnnouncers : List Label :=
  [.timer true] ++ List.replicate 8 .dispatcher ++ [.worker 0 0, .worker 0 0]
    ++ [.worker 1 0, .worker 1 0]

/-- The calls of a list of calls that one task made to the mutex, the audio
subsystem and `vTaskDelete`. -/
def callsOf (who : TaskRef) (calls : List Call) : List Call :=
  calls.filter fun c =>
    match c with
    | .xSemaphoreTake caller => caller = who
    | .xSemaphoreGive caller => caller = who
    | .audio_handle_info caller _ => caller = who
    | .vTaskDelete caller _ => caller = who
    | _ => false

/-- A click while the first announcement plays.  The first tick creates worker 0
(`Light_100`, handle in `xtaskHandle5`); worker 0 takes the mutex and enters
`audio_handle_info`; the click toggles the colour and the next tick creates worker 1
(`Light_100`, its handle overwrites `xtaskHandle5`); the audio call of worker 0
returns and worker 0 gives the mutex; worker 1 takes it and enters
`audio_handle_info`; worker 0 reaches its `vTaskDelete(xtaskHandle5)`. -/
def clickWhilePlaying : List Label :=
  [.timer true, .worker 0 0, .worker 0 0, .event .LV_EVENT_CLICKED 0 true, .timer true,
    .worker 0 0, .worker 0 0, .worker 1 0, .worker 1 0, .worker 0 0]

/-- The mutex is held by worker 1, which `vTaskDelete` has removed. -/
def Stranded (s : Sys) : Prop :=
  MutexInv s ∧ s.xMutex = some (.worker 1) ∧ ∃ w, s.tasks[1]? = some w ∧ w.pc = .deleted

/-! ## Sample states -/

/-- The state after the first tick: brightness 100, warm, announced. -/
def firstTick : Sys :=
  run [.timer true] ui_light_2color_init

/-- The state after the first tick and three accepted `LV_KEY_LEFT`: brightness 25,
not yet noticed by a tick. -/
def dimmedTo25 : Sys :=
  run [.timer true, .event .LV_EVENT_KEY LV_KEY_LEFT true, .event .LV_EVENT_KEY LV_KEY_LEFT true,
    .event .LV_EVENT_KEY LV_KEY_LEFT true] ui_light_2color_init

/-- The state once the first announcement is over: the first tick, one wake of the
dispatch loop, then the two workers created for brightness 100 run to their end,
the later one first.  No flag is pending and the mutex is free. -/
def settledAt100 : Sys :=
  run ([.timer true] ++ List.replicate 8 .dispatcher ++ List.replicate 5 (.worker 1 0)
    ++ List.replicate 5 (.worker 0 0)) ui_light_2color_init

/-- The state `settledAt100` after one accepted `LV_KEY_LEFT`: brightness 75, not yet
noticed by a tick. -/
def dimmedTo75 : Sys :=
  step settledAt100 (.event .LV_EVENT_KEY LV_KEY_LEFT true)

/-! ## Writing a handle variable leaves every other field alone -/

@[simp]
theorem setHandle_light_set_conf (s : Sys) (h : HandleVar) (v : Option Nat) :
    (s.setHandle h v).light_set_conf = s.light_set_conf := by
  cases h <;> rfl

@[simp]
theorem setHandle_light_xor (s : Sys) (h : HandleVar) (v : Option Nat) :
    (s.setHandle h v).light_xor = s.light_xor := by
  cases h <;> rfl

@[simp]
theorem setHandle_img_light_bg (s : Sys) (h : HandleVar) (v : Option Nat) :
    (s.setHandle h v).img_light_bg = s.img_light_bg := by
  cases h <;> rfl

@[simp]
theorem setHandle_img_light_pwm_0 (s : Sys) (h : HandleVar) (v : Option Nat) :
    (s.setHandle h v).img_light_pwm_0 = s.img_light_pwm_0 := by
  cases h <;> rfl

@[simp]
theorem setHandle_img_light_pwm_25 (s : Sys) (h : HandleVar) (v : Option Nat) :
    (s.setHandle h v).img_light_pwm_25 = s.img_light_pwm_25 := by
  cases h <;> rfl

@[simp]
theorem setHandle_img_light_pwm_50 (s : Sys) (h : HandleVar) (v : Option Nat) :
    (s.setHandle h v).img_light_pwm_50 = s.img_light_pwm_50 := by
  cases h <;> rfl

@[simp]
theorem setHandle_img_light_pwm_75 (s : Sys) (h : HandleVar) (v : Option Nat) :
    (s.setHandle h v).img_light_pwm_75 = s.img_light_pwm_75 := by
  cases h <;> rfl

@[simp]
theorem setHandle_img_light_pwm_100 (s : Sys) (h : HandleVar) (v : Option Nat) :
    (s.setHandle h v).img_light_pwm_100 = s.img_light_pwm_100 := by
  cases h <;> rfl

@[simp]
theorem setHandle_label_pwm_set (s : Sys) (h : HandleVar) (v : Option Nat) :
    (s.setHandle h v).label_pwm_set = s.label_pwm_set := by
  cases h <;> rfl

@[simp]
theorem setHandle_xMutex (s : Sys) (h : HandleVar) (v : Option Nat) :
    (s.setHandle h v).xMutex = s.xMutex := by
  cases h <;> rfl

@[simp]
theorem setHandle_AnnounceGroup (s : Sys) (h : HandleVar) (v : Option Nat) :
    (s.setHandle h v).AnnounceGroup = s.AnnounceGroup := by
  cases h <;> rfl

@[simp]
theorem setHandle_tasks (s : Sys) (h : HandleVar) (v : Option Nat) :
    (s.setHandle h v).tasks = s.tasks := by
  cases h <;> rfl

@[simp]
theorem setHandle_dispatcher (s : Sys) (h : HandleVar) (v : Option Nat) :
    (s.setHandle h v).dispatcher = s.dispatcher := by
  cases h <;> rfl

@[simp]
theorem setHandle_log (s : Sys) (h : HandleVar) (v : Option Nat) :
    (s.setHandle h v).log = s.log := by
  cases h <;> rfl

@[simp]
theorem setHandle_handle (s : Sys) (h : HandleVar) (v : Option Nat) :
    (s.setHandle h v).handle h = v := by
  cases h <;> rfl

theorem setHandle_handle_ne (s : Sys) (h k : HandleVar) (v : Option Nat) (hk : k ≠ h) :
    (s.setHandle h v).handle k = s.handle k := by
  cases h <;> cases k <;> first | rfl | exact absurd rfl hk

/-! ## The timer callback -/

theorem switch_light_pwm_light_xor (c : Nat) (s : Sys) :
    (switch_light_pwm c s).light_xor = s.light_xor := by
  unfold switch_light_pwm
  split_ifs <;> simp

theorem switch_light_pwm_light_set_conf (c : Nat) (s : Sys) :
    (switch_light_pwm c s).light_set_conf = s.light_set_conf := by
  unfold switch_light_pwm
  split_ifs <;> simp

theorem timer_cb_changed_light_xor (s : Sys) :
    (timer_cb_changed s).light_xor = s.light_set_conf := by
  unfold timer_cb_changed timer_cb_before_switch
  simp only [switch_light_pwm_light_xor]
  split_ifs <;> simp

theorem timer_cb_changed_light_set_conf (s : Sys) :
    (timer_cb_changed s).light_set_conf = s.light_set_conf := by
  unfold timer_cb_changed timer_cb_before_switch
  simp only [switch_light_pwm_light_set_conf]
  split_ifs <;> simp

theorem timer_cb_light_set_conf (due : Bool) (s : Sys) :
    (light_2color_layer_timer_cb due s).light_set_conf = s.light_set_conf := by
  unfold light_2color_layer_timer_cb
  split_ifs <;> simp [timer_cb_changed_light_set_conf]

theorem attribute_ne_iff (a b : light_set_attribute_t) :
    a ≠ b ↔ (a.light_pwm ≠ b.light_pwm ∨ a.light_cck ≠ b.light_cck) := by
  cases a; cases b
  simp only [ne_eq, light_set_attribute_t.mk.injEq]
  tauto

theorem changed_iff (s : Sys) :
    ((s.light_set_conf.light_pwm ^^^ s.light_xor.light_pwm) ≠ 0
        ∨ (s.light_set_conf.light_cck ^^^ s.light_xor.light_cck) ≠ 0) ↔
      s.light_set_conf ≠ s.light_xor := by
  rw [Nat.xor_ne_zero, Nat.xor_ne_zero, attribute_ne_iff]

theorem timer_cb_of_eq (due : Bool) (s : Sys) (h : s.light_set_conf = s.light_xor) :
    light_2color_layer_timer_cb due s = s := by
  unfold light_2color_layer_timer_cb
  have hc := (changed_iff s).not.mpr (not_not.mpr h)
  simp only [if_neg hc, ite_self]

theorem timer_cb_of_ne (s : Sys) (h : s.light_set_conf ≠ s.light_xor) :
    light_2color_layer_timer_cb true s = timer_cb_changed s := by
  unfold light_2color_layer_timer_cb
  have hc := (changed_iff s).mpr h
  simp only [if_pos hc, if_true]

theorem timer_cb_light_xor (s : Sys) :
    (light_2color_layer_timer_cb true s).light_xor = s.light_set_conf := by
  by_cases h : s.light_set_conf = s.light_xor
  · rw [timer_cb_of_eq true s h, h]
  · rw [timer_cb_of_ne s h, timer_cb_changed_light_xor]

/-- C1: a due tick changes the shadow copy `light_xor` exactly when the live state
`light_set_conf` differs from it in brightness or in colour temperature; after the
tick the shadow copy equals the live state; a further tick, due or not, with no
input in between returns the state unchanged, log included, so it sets no flag,
creates no worker and makes no LED or LVGL call. -/
theorem timer_cb_detects_change_once (s : Sys) :
    ((light_2color_layer_timer_cb true s).light_xor ≠ s.light_xor ↔
        (s.light_set_conf.light_pwm ≠ s.light_xor.light_pwm
          ∨ s.light_set_conf.light_cck ≠ s.light_xor.light_cck))
    ∧ (light_2color_layer_timer_cb true s).light_xor
        = (light_2color_layer_timer_cb true s).light_set_conf
    ∧ ∀ due, light_2color_layer_timer_cb due (light_2color_layer_timer_cb true s)
        = light_2color_layer_timer_cb true s := by
  refine ⟨?_, ?_, ?_⟩
  · rw [timer_cb_light_xor, attribute_ne_iff]
  · rw [timer_cb_light_xor, timer_cb_light_set_conf]
  · intro due
    apply timer_cb_of_eq
    rw [timer_cb_light_xor, timer_cb_light_set_conf]

/-! ## Schedules and the brightness invariant -/

theorem run_invariant (P : Sys → Prop) (hstep : ∀ s l, P s → P (step s l))
    (schedule : List Label) (s : Sys) (h0 : P s) : P (run schedule s) := by
  unfold run
  induction schedule generalizing s with
  | nil => exact h0
  | cons l ls ih => exact ih (step s l) (hstep s l h0)

theorem vTaskDelete_light_set_conf (i : Nat) (h : Option Nat) (s : Sys) :
    (vTaskDelete i h s).light_set_conf = s.light_set_conf := by
  unfold vTaskDelete
  split
  · simp
  · split_ifs <;> simp

theorem workerStep_light_set_conf (i : Nat) (r : Int) (s : Sys) :
    (workerStep i r s).light_set_conf = s.light_set_conf := by
  unfold workerStep
  split
  · rfl
  · split <;> try split_ifs
    all_goals simp [vTaskDelete_light_set_conf]

theorem dispatcherStep_light_set_conf (s : Sys) :
    (dispatcherStep s).light_set_conf = s.light_set_conf := by
  unfold dispatcherStep
  split <;> try split_ifs
  all_goals simp

/-- The brightness values the key handler can produce. -/
theorem event_cb_pwm_mem (code : lv_event_code_t) (key : Nat) (t : Bool) (s : Sys)
    (h : s.light_set_conf.light_pwm ∈ [0, 25, 50, 75, 100]) :
    (light_2color_event_cb code key t s).light_set_conf.light_pwm ∈ [0, 25, 50, 75, 100] := by
  unfold light_2color_event_cb
  simp only [List.mem_cons, List.mem_singleton, List.not_mem_nil, or_false] at h ⊢
  split_ifs <;> (try simp) <;> omega

theorem step_pwm_mem (s : Sys) (l : Label)
    (h : s.light_set_conf.light_pwm ∈ [0, 25, 50, 75, 100]) :
    (step s l).light_set_conf.light_pwm ∈ [0, 25, 50, 75, 100] := by
  cases l with
  | event code key t => exact event_cb_pwm_mem code key t s h
  | timer due => simpa [step, timer_cb_light_set_conf] using h
  | worker i r => simpa [step, workerStep_light_set_conf] using h
  | dispatcher => simpa [step, dispatcherStep_light_set_conf] using h
  | setBits bits => simpa [step] using h
  | create fn => simpa [step] using h

theorem run_pwm_mem (schedule : List Label) :
    (run schedule ui_light_2color_init).light_set_conf.light_pwm ∈ [0, 25, 50, 75, 100] :=
  run_invariant (fun s => s.light_set_conf.light_pwm ∈ [0, 25, 50, 75, 100]) step_pwm_mem
    schedule ui_light_2color_init (by simp [ui_light_2color_init])

/-- C4: from the state left by `ui_light_2color_init`, after every schedule (input
events of every kind with the debounce timer expired or not, ticks, and steps of
the announcement tasks) the brightness is one of 0, 25, 50, 75, 100; from such a
state an accepted `LV_KEY_RIGHT` adds exactly 25 and an accepted `LV_KEY_LEFT`
subtracts exactly 25, as natural numbers, so the `uint8_t` does not wrap;
`LV_KEY_RIGHT` at 100, `LV_KEY_LEFT` at 0 and every other event leave the brightness
unchanged. -/
theorem brightness_stays_on_steps (schedule : List Label) :
    (run schedule ui_light_2color_init).light_set_conf.light_pwm ∈ [0, 25, 50, 75, 100]
    ∧ ∀ (code : lv_event_code_t) (key : Nat) (timed_out : Bool),
        (light_2color_event_cb code key timed_out
            (run schedule ui_light_2color_init)).light_set_conf.light_pwm =
          if code = .LV_EVENT_KEY ∧ timed_out = true ∧ key = LV_KEY_RIGHT
              ∧ (run schedule ui_light_2color_init).light_set_conf.light_pwm ≠ 100 then
            (run schedule ui_light_2color_init).light_set_conf.light_pwm + 25
          else if code = .LV_EVENT_KEY ∧ timed_out = true ∧ key = LV_KEY_LEFT
              ∧ (run schedule ui_light_2color_init).light_set_conf.light_pwm ≠ 0 then
            (run schedule ui_light_2color_init).light_set_conf.light_pwm - 25
          else (run schedule ui_light_2color_init).light_set_conf.light_pwm := by
  have hmem := run_pwm_mem schedule
  refine ⟨hmem, ?_⟩
  intro code key timed_out
  generalize run schedule ui_light_2color_init = s at hmem ⊢
  simp only [List.mem_cons, List.mem_singleton, List.not_mem_nil, or_false] at hmem
  unfold light_2color_event_cb LV_KEY_RIGHT LV_KEY_LEFT
  cases code <;> cases timed_out <;> simp
  all_goals split_ifs
  all_goals first | omega | (simp; omega)

/-! ## The LED colour -/

theorem callsSince_append (s : Sys) (l1 l2 : List Call) (h : s.log = l1 ++ l2) :
    s.callsSince l1.length = l2 := by
  simp [Sys.callsSince, h]


theorem timer_cb_changed_ledCalls (s : Sys) :
    ledCalls ((timer_cb_changed s).callsSince s.log.length) =
      [(((RGB_color s.light_set_conf >>> 16) &&& 0xFF) % 256,
        ((RGB_color s.light_set_conf >>> 8) &&& 0xFF) % 256,
        RGB_color s.light_set_conf % 256)] := by
  unfold timer_cb_changed timer_cb_before_switch switch_light_pwm
  simp only []
  split_ifs <;> simp [Sys.callsSince, ledCalls]

theorem RGB_color_cool_unpack (pwm : Nat) (hp : pwm ∈ [0, 25, 50, 75, 100]) :
    ((RGB_color ⟨pwm, LIGHT_CCK_COOL⟩ >>> 16) &&& 0xFF) % 256 = 0xFF * pwm / 100
    ∧ ((RGB_color ⟨pwm, LIGHT_CCK_COOL⟩ >>> 8) &&& 0xFF) % 256 = 0xFF * pwm / 100
    ∧ RGB_color ⟨pwm, LIGHT_CCK_COOL⟩ % 256 = 0xFF * pwm / 100 := by
  simp only [List.mem_cons, List.mem_singleton, List.not_mem_nil, or_false] at hp
  rcases hp with h | h | h | h | h <;> subst h <;> decide

theorem RGB_color_warm_unpack (pwm : Nat) (hp : pwm ∈ [0, 25, 50, 75, 100]) :
    ((RGB_color ⟨pwm, LIGHT_CCK_WARM⟩ >>> 16) &&& 0xFF) % 256 = 0xFF * pwm / 100
    ∧ ((RGB_color ⟨pwm, LIGHT_CCK_WARM⟩ >>> 8) &&& 0xFF) % 256 = 0xFF * pwm / 100
    ∧ RGB_color ⟨pwm, LIGHT_CCK_WARM⟩ % 256 = 0x33 * pwm / 100 := by
  simp only [List.mem_cons, List.mem_singleton, List.not_mem_nil, or_false] at hp
  rcases hp with h | h | h | h | h <;> subst h <;> decide

/-- C5: for a brightness on one of the five steps, the tick that detects a change
makes exactly one `bsp_led_rgb_set` call; its three arguments, after the packing into
`RGB_color`, the shifts, the masks and the 8-bit truncation, are `0xFF * pwm / 100`
three times when the temperature is cool, and `0xFF * pwm / 100` twice followed by
`0x33 * pwm / 100` when it is warm.  Every channel is at most 255 and the warm blue
channel is the red channel times `0x33` divided by `0xFF`, rounded down. -/
theorem led_channels_of_step (s : Sys)
    (hp : s.light_set_conf.light_pwm ∈ [0, 25, 50, 75, 100])
    (hne : s.light_set_conf ≠ s.light_xor) :
    (s.light_set_conf.light_cck = LIGHT_CCK_COOL →
      ledCalls ((light_2color_layer_timer_cb true s).callsSince s.log.length) =
        [(0xFF * s.light_set_conf.light_pwm / 100, 0xFF * s.light_set_conf.light_pwm / 100,
          0xFF * s.light_set_conf.light_pwm / 100)])
    ∧ (s.light_set_conf.light_cck = LIGHT_CCK_WARM →
      ledCalls ((light_2color_layer_timer_cb true s).callsSince s.log.length) =
        [(0xFF * s.light_set_conf.light_pwm / 100, 0xFF * s.light_set_conf.light_pwm / 100,
          0x33 * s.light_set_conf.light_pwm / 100)])
    ∧ 0xFF * s.light_set_conf.light_pwm / 100 ≤ 255
    ∧ 0x33 * s.light_set_conf.light_pwm / 100 ≤ 255
    ∧ 0x33 * s.light_set_conf.light_pwm / 100
        = (0xFF * s.light_set_conf.light_pwm / 100) * 0x33 / 0xFF := by
  rw [timer_cb_of_ne s hne, timer_cb_changed_ledCalls]
  refine ⟨?_, ?_, ?_⟩
  · intro hc
    obtain ⟨h1, h2, h3⟩ := RGB_color_cool_unpack _ hp
    have e : s.light_set_conf = ⟨s.light_set_conf.light_pwm, LIGHT_CCK_COOL⟩ := by
      rw [← hc]
    rw [e]
    simp only [h1, h2, h3]
  · intro hc
    obtain ⟨h1, h2, h3⟩ := RGB_color_warm_unpack _ hp
    have e : s.light_set_conf = ⟨s.light_set_conf.light_pwm, LIGHT_CCK_WARM⟩ := by
      rw [← hc]
    rw [e]
    simp only [h1, h2, h3]
  · simp only [List.mem_cons, List.mem_singleton, List.not_mem_nil, or_false] at hp
    rcases hp with h | h | h | h | h <;> rw [h] <;> decide

/-- The C5 statement at a reachable state: after the first tick and three accepted
`LV_KEY_LEFT` the brightness is 25 and warm, and the next tick sets the LED to
(63, 63, 12). -/
theorem led_channels_of_step_witness :
    dimmedTo25.light_set_conf = ⟨25, LIGHT_CCK_WARM⟩
    ∧ dimmedTo25.light_set_conf ≠ dimmedTo25.light_xor
    ∧ ledCalls ((light_2color_layer_timer_cb true dimmedTo25).callsSince dimmedTo25.log.length)
        = [(63, 63, 12)] :=
  ⟨by decide, by decide, (led_channels_of_step dimmedTo25 (by decide) (by decide)).2.1 (by decide)⟩

/-! ## The step images and the label -/

theorem timer_cb_changed_visible (s : Sys) (hp : s.light_set_conf.light_pwm ∈ [0, 25, 50, 75, 100]) :
    visible (timer_cb_changed s) =
      [if s.light_set_conf.light_pwm = 0 then Img.img_light_pwm_0
        else if s.light_set_conf.light_pwm = 25 then .img_light_pwm_25
        else if s.light_set_conf.light_pwm = 50 then .img_light_pwm_50
        else if s.light_set_conf.light_pwm = 75 then .img_light_pwm_75
        else .img_light_pwm_100]
    ∧ (timer_cb_changed s).label_pwm_set =
        (if s.light_set_conf.light_pwm = 0 then "--"
          else toString s.light_set_conf.light_pwm ++ "%") := by
  simp only [List.mem_cons, List.mem_singleton, List.not_mem_nil, or_false] at hp
  unfold timer_cb_changed timer_cb_before_switch switch_light_pwm
  rcases hp with h | h | h | h | h <;> simp [h, visible]

/-- C10: in every state reachable from `ui_light_2color_init` by a schedule, a due
tick that detects a change leaves exactly one of the five step images without the
hidden flag, the one of the current brightness, and the label reads "--" at
brightness 0 and the decimal brightness followed by a percent sign otherwise.  In
the state left by `ui_light_2color_init` itself two step images are visible
(`img_light_pwm_25` and `img_light_pwm_50`). -/
theorem one_step_image_visible_after_tick (schedule : List Label)
    (hne : (run schedule ui_light_2color_init).light_set_conf
      ≠ (run schedule ui_light_2color_init).light_xor) :
    visible (light_2color_layer_timer_cb true (run schedule ui_light_2color_init)) =
      [if (run schedule ui_light_2color_init).light_set_conf.light_pwm = 0 then Img.img_light_pwm_0
        else if (run schedule ui_light_2color_init).light_set_conf.light_pwm = 25 then
          .img_light_pwm_25
        else if (run schedule ui_light_2color_init).light_set_conf.light_pwm = 50 then
          .img_light_pwm_50
        else if (run schedule ui_light_2color_init).light_set_conf.light_pwm = 75 then
          .img_light_pwm_75
        else .img_light_pwm_100]
    ∧ (run schedule ui_light_2color_init).light_set_conf.light_pwm ∈ [0, 25, 50, 75, 100]
    ∧ (light_2color_layer_timer_cb true (run schedule ui_light_2color_init)).label_pwm_set =
        (if (run schedule ui_light_2color_init).light_set_conf.light_pwm = 0 then "--"
          else toString (run schedule ui_light_2color_init).light_set_conf.light_pwm ++ "%")
    ∧ visible ui_light_2color_init = [.img_light_pwm_25, .img_light_pwm_50] := by
  have hp := run_pwm_mem schedule
  rw [timer_cb_of_ne _ hne]
  obtain ⟨h1, h2⟩ := timer_cb_changed_visible _ hp
  exact ⟨h1, hp, h2, by decide⟩

/-- The C10 statement at a reachable state: after the first tick and three accepted
`LV_KEY_LEFT` the next tick shows `img_light_pwm_25` alone. -/
theorem one_step_image_visible_after_tick_witness :
    visible (light_2color_layer_timer_cb true dimmedTo25) = [.img_light_pwm_25] :=
  (one_step_image_visible_after_tick
    [.timer true, .event .LV_EVENT_KEY LV_KEY_LEFT true, .event .LV_EVENT_KEY LV_KEY_LEFT true,
      .event .LV_EVENT_KEY LV_KEY_LEFT true] (by decide)).1

/-! ## A worker running undisturbed -/

theorem vTaskDelete_log (i : Nat) (h : Option Nat) (s : Sys) :
    (vTaskDelete i h s).log = s.log ++ [.vTaskDelete (.worker i) h] := by
  unfold vTaskDelete
  split
  · simp
  · split_ifs <;> simp

theorem vTaskDelete_xMutex (i : Nat) (h : Option Nat) (s : Sys) :
    (vTaskDelete i h s).xMutex = s.xMutex := by
  unfold vTaskDelete
  split
  · simp
  · split_ifs <;> simp

theorem vTaskDelete_tasks_self (i : Nat) (h : Option Nat) (s : Sys) (w : Worker)
    (hw : s.tasks[i]? = some w) :
    ∃ pc, (vTaskDelete i h s).tasks[i]? = some ⟨w.fn, pc⟩ ∧ (pc = .deleted ∨ pc = .returned)
      ∧ (h = some i → pc = .deleted) := by
  unfold vTaskDelete
  split
  · exact ⟨.deleted, by simp [hw], Or.inl rfl, fun _ => rfl⟩
  · rename_i j
    split_ifs with hj
    · exact ⟨.deleted, by simp [hw], Or.inl rfl, fun _ => rfl⟩
    · refine ⟨.returned, ?_, Or.inr rfl, ?_⟩
      · simp [hw, List.getElem?_modify_ne _ _ hj]
      · intro h'
        exact absurd (Option.some.inj h') hj

theorem runWorker_fields (i : Nat) (r : Int) (s : Sys) (fn : TaskFn)
    (hw : s.tasks[i]? = some ⟨fn, .atTake⟩) (hm : s.xMutex = none) :
    (runWorker i r s).log = s.log ++
        [.xSemaphoreTake (.worker i), .audio_handle_info (.worker i) fn.voice,
          .xSemaphoreGive (.worker i), .vTaskDelete (.worker i) (s.handle fn.handleVar)]
    ∧ (runWorker i r s).xMutex = none
    ∧ ∃ pc, (runWorker i r s).tasks[i]? = some ⟨fn, pc⟩ ∧ (pc = .deleted ∨ pc = .returned)
        ∧ (s.handle fn.handleVar = some i → pc = .deleted) := by
  unfold runWorker run
  simp only [List.replicate, List.foldl, step, workerStep, hw, hm, if_true]
  simp only [Sys.setPC, Sys.emit, List.getElem?_modify_eq, hw, Option.map_eq_map, Option.map_some']
  have hh : ∀ S : Sys, S.xtaskHandle = s.xtaskHandle → S.xtaskHandle2 = s.xtaskHandle2 →
      S.xtaskHandle3 = s.xtaskHandle3 → S.xtaskHandle4 = s.xtaskHandle4 →
      S.xtaskHandle5 = s.xtaskHandle5 → S.handle fn.handleVar = s.handle fn.handleVar := by
    intro S h1 h2 h3 h4 h5
    cases fn <;> simp [Sys.handle, TaskFn.handleVar, h1, h2, h3, h4, h5]
  rw [hh _ rfl rfl rfl rfl rfl]
  refine ⟨?_, ?_, ?_⟩
  · rw [vTaskDelete_log]
    simp
    exact hh _ rfl rfl rfl rfl rfl
  · rw [vTaskDelete_xMutex]
  · exact vTaskDelete_tasks_self i (s.handle fn.handleVar) _ ⟨fn, .atDelete⟩
      (by simp [hw])

/-! ## One wake of the dispatch loop -/

theorem wake_fields (s : Sys) (hd : s.dispatcher = .atTake) (hm : s.xMutex = none) :
    (wake s).log = s.log ++
        ([.xSemaphoreTake .dispatcher, .xEventGroupWaitBits s.AnnounceGroup]
          ++ (flagged s.AnnounceGroup).map (fun fn => Call.xTaskCreate fn fn.handleVar)
          ++ [.xSemaphoreGive .dispatcher])
    ∧ (wake s).tasks = s.tasks ++ (flagged s.AnnounceGroup).map (fun fn => Worker.mk fn .atTake)
    ∧ (wake s).AnnounceGroup = clearOnExit s.AnnounceGroup All_Task_Bits
    ∧ (wake s).xMutex = none
    ∧ (wake s).dispatcher = .atTake := by
  unfold wake run
  simp only [List.replicate, List.foldl, step]
  simp only [dispatcherStep, hd, hm, if_true, Sys.emit]
  by_cases h0 : s.AnnounceGroup &&& Light_0_ID = 0 <;>
  by_cases h1 : s.AnnounceGroup &&& Light_25_ID = 0 <;>
  by_cases h2 : s.AnnounceGroup &&& Light_50_ID = 0 <;>
  by_cases h3 : s.AnnounceGroup &&& Light_75_ID = 0 <;>
  by_cases h4 : s.AnnounceGroup &&& Light_100_ID = 0 <;>
  simp [h0, h1, h2, h3, h4, flagged, TaskFn.flag, TaskFn.handleVar, List.filter]

/-! ## What a detecting tick hands to the arbiter -/

theorem switch_light_pwm_arbiter (c : Nat) (s : Sys) :
    (switch_light_pwm c s).log = s.log ++ (switch_light_pwm c s).callsSince s.log.length
    ∧ flagsSet ((switch_light_pwm c s).callsSince s.log.length)
        = (announcerOf s.light_xor.light_pwm).toList.map TaskFn.flag
    ∧ spawned ((switch_light_pwm c s).callsSince s.log.length)
        = (announcerOf s.light_xor.light_pwm).toList
    ∧ (switch_light_pwm c s).tasks
        = s.tasks ++ (announcerOf s.light_xor.light_pwm).toList.map (fun fn => Worker.mk fn .atTake)
    ∧ (switch_light_pwm c s).AnnounceGroup
        = ((announcerOf s.light_xor.light_pwm).toList.map TaskFn.flag).foldl (· ||| ·)
            s.AnnounceGroup
    ∧ (switch_light_pwm c s).xMutex = s.xMutex
    ∧ (switch_light_pwm c s).dispatcher = s.dispatcher := by
  unfold switch_light_pwm announcerOf
  split_ifs <;> simp [Sys.callsSince, flagsSet, spawned, TaskFn.flag]

theorem timer_cb_before_switch_fields (s : Sys) :
    (timer_cb_before_switch s).light_xor = s.light_set_conf
    ∧ (timer_cb_before_switch s).tasks = s.tasks
    ∧ (timer_cb_before_switch s).AnnounceGroup = s.AnnounceGroup
    ∧ (timer_cb_before_switch s).xMutex = s.xMutex
    ∧ (timer_cb_before_switch s).dispatcher = s.dispatcher
    ∧ (timer_cb_before_switch s).log
        = s.log ++ (timer_cb_before_switch s).callsSince s.log.length
    ∧ flagsSet ((timer_cb_before_switch s).callsSince s.log.length) = []
    ∧ spawned ((timer_cb_before_switch s).callsSince s.log.length) = []
    ∧ renderCalls ((timer_cb_before_switch s).callsSince s.log.length) ≠ [] := by
  unfold timer_cb_before_switch
  simp only []
  split_ifs <;> simp [Sys.callsSince, flagsSet, spawned, renderCalls]

theorem timer_cb_changed_arbiter (s : Sys) :
    flagsSet ((timer_cb_changed s).callsSince s.log.length)
        = (announcerOf s.light_set_conf.light_pwm).toList.map TaskFn.flag
    ∧ spawned ((timer_cb_changed s).callsSince s.log.length)
        = (announcerOf s.light_set_conf.light_pwm).toList
    ∧ (timer_cb_changed s).tasks
        = s.tasks ++ (announcerOf s.light_set_conf.light_pwm).toList.map (fun fn => Worker.mk fn .atTake)
    ∧ (timer_cb_changed s).AnnounceGroup
        = ((announcerOf s.light_set_conf.light_pwm).toList.map TaskFn.flag).foldl (· ||| ·)
            s.AnnounceGroup
    ∧ (timer_cb_changed s).xMutex = s.xMutex
    ∧ (timer_cb_changed s).dispatcher = s.dispatcher
    ∧ renderCalls ((timer_cb_changed s).callsSince s.log.length) ≠ []
    ∧ (timer_cb_changed s).log = s.log ++ (timer_cb_changed s).callsSince s.log.length := by
  obtain ⟨b1, b2, b3, b4, b5, b6, b7, b8, b9⟩ := timer_cb_before_switch_fields s
  obtain ⟨a0, a1, a2, a3, a4, a5, a6⟩ := switch_light_pwm_arbiter
    ((timer_cb_before_switch s).light_xor.light_cck % 256) (timer_cb_before_switch s)
  have hlog : (timer_cb_changed s).callsSince s.log.length
      = (timer_cb_before_switch s).callsSince s.log.length
        ++ (timer_cb_changed s).callsSince (timer_cb_before_switch s).log.length := by
    unfold timer_cb_changed
    conv_lhs => rw [Sys.callsSince, a0, b6, List.append_assoc, List.drop_left]
    rw [← b6]
  unfold timer_cb_changed at hlog ⊢
  refine ⟨?_, ?_, ?_, ?_, ?_, ?_, ?_, ?_⟩
  · rw [hlog, flagsSet, List.filterMap_append, ← flagsSet, ← flagsSet, a1, b7, b1, List.nil_append]
  · rw [hlog, spawned, List.filterMap_append, ← spawned, ← spawned, a2, b8, b1, List.nil_append]
  · rw [a3, b2, b1]
  · rw [a4, b3, b1]
  · rw [a5, b4]
  · rw [a6, b5]
  · rw [hlog, renderCalls, List.filter_append]
    intro h
    exact b9 (List.append_eq_nil.mp h).1
  · rw [hlog, a0, b6, List.append_assoc]

/-! ## The dispatch loop: consuming the signal -/

theorem clearOnExit_of_subset (g : Nat) (hF : g &&& All_Task_Bits = g) :
    clearOnExit g All_Task_Bits = 0 := by
  have hle : g ≤ 31 := by
    rw [← hF]
    exact Nat.and_le_right
  interval_cases g <;> decide

theorem mem_flagged (xbits : Nat) (fn : TaskFn) : fn ∈ flagged xbits ↔ xbits &&& fn.flag ≠ 0 := by
  unfold flagged
  cases fn <;> simp

theorem flagged_nodup (xbits : Nat) : (flagged xbits).Nodup := by
  unfold flagged
  exact List.Nodup.filter _ (by decide)

theorem flag_injective : Function.Injective TaskFn.flag := by
  intro a b h
  cases a <;> cases b <;> first | rfl | exact absurd h (by decide)

theorem voice_injective : Function.Injective TaskFn.voice := by
  intro a b h
  cases a <;> cases b <;> first | rfl | exact absurd h (by decide)

theorem spawned_map_create (l : List TaskFn) :
    spawned (l.map (fun fn => Call.xTaskCreate fn fn.handleVar)) = l := by
  induction l with
  | nil => rfl
  | cons a l ih =>
    simp only [List.map_cons, spawned, List.filterMap_cons] at ih ⊢
    rw [ih]

theorem wake_spawned (s : Sys) (hd : s.dispatcher = .atTake) (hm : s.xMutex = none) :
    spawned ((wake s).callsSince s.log.length) = flagged s.AnnounceGroup := by
  rw [callsSince_append _ _ _ (wake_fields s hd hm).1]
  simp only [spawned, List.filterMap_append, List.filterMap_cons, List.filterMap_nil,
    List.nil_append, List.append_nil]
  exact spawned_map_create _

theorem runWorker_played (i : Nat) (r : Int) (s : Sys) (fn : TaskFn)
    (hw : s.tasks[i]? = some ⟨fn, .atTake⟩) (hm : s.xMutex = none) :
    played ((runWorker i r s).callsSince s.log.length) = [fn.voice] := by
  rw [callsSince_append _ _ _ (runWorker_fields i r s fn hw hm).1]
  rfl

/-- C6: when the dispatch loop wakes with the mutex free and any set of the five
flags in `AnnounceGroup`, the wake leaves the event group empty and creates, in the
order of its `if` statements, exactly the workers `flagged` lists: one for each
task function whose flag was set, none for the others, no task function twice.
Each created worker, run undisturbed, plays exactly the sound of its task function,
which is `SOUND_TYPE_LIGHT0/25/50/75/100` for `Light_0/25/50/75/100`.  The five flag
bits are pairwise distinct, and flag and sound are injective in the task
function. -/
theorem wake_consumes_flags (s : Sys) (hd : s.dispatcher = .atTake) (hm : s.xMutex = none)
    (hF : s.AnnounceGroup &&& All_Task_Bits = s.AnnounceGroup) :
    (wake s).AnnounceGroup = 0
    ∧ spawned ((wake s).callsSince s.log.length) = flagged s.AnnounceGroup
    ∧ (wake s).tasks = s.tasks ++ (flagged s.AnnounceGroup).map (fun fn => Worker.mk fn .atTake)
    ∧ (∀ fn, fn ∈ flagged s.AnnounceGroup ↔ s.AnnounceGroup &&& fn.flag ≠ 0)
    ∧ (flagged s.AnnounceGroup).Nodup
    ∧ (∀ (i : Nat) (fn : TaskFn) (result : Int), (wake s).tasks[i]? = some ⟨fn, .atTake⟩ →
        played ((runWorker i result (wake s)).callsSince (wake s).log.length) = [fn.voice])
    ∧ (TaskFn.Light_0.voice = .SOUND_TYPE_LIGHT0 ∧ TaskFn.Light_25.voice = .SOUND_TYPE_LIGHT25
        ∧ TaskFn.Light_50.voice = .SOUND_TYPE_LIGHT50 ∧ TaskFn.Light_75.voice = .SOUND_TYPE_LIGHT75
        ∧ TaskFn.Light_100.voice = .SOUND_TYPE_LIGHT100)
    ∧ [Light_0_ID, Light_25_ID, Light_50_ID, Light_75_ID, Light_100_ID].Nodup
    ∧ Function.Injective TaskFn.flag
    ∧ Function.Injective TaskFn.voice := by
  obtain ⟨h1, h2, h3, h4, _⟩ := wake_fields s hd hm
  refine ⟨?_, ?_, h2, mem_flagged _, flagged_nodup _, ?_, ⟨rfl, rfl, rfl, rfl, rfl⟩, by decide,
    flag_injective, voice_injective⟩
  · rw [h3, clearOnExit_of_subset _ hF]
  · exact wake_spawned s hd hm
  · intro i fn result hw
    exact runWorker_played i result (wake s) fn hw h4

/-- The C6 statement at the state after the first tick, where the flag of
brightness 100 is pending: the wake empties the event group and creates one
`Light_100` worker. -/
theorem wake_consumes_flags_witness :
    firstTick.AnnounceGroup = Light_100_ID
    ∧ (wake firstTick).AnnounceGroup = 0
    ∧ spawned ((wake firstTick).callsSince firstTick.log.length) = [.Light_100] :=
  ⟨by decide, (wake_consumes_flags firstTick (by decide) (by decide) (by decide)).1,
    (wake_consumes_flags firstTick (by decide) (by decide) (by decide)).2.1⟩

/-! ## The dispatch loop: an empty signal -/

/-- C7, as stated, fails: in the state left by `ui_light_2color_init`, where no flag
is set, the first call of a wake is `xSemaphoreTake(xMutex, portMAX_DELAY)`, after which
the dispatch loop holds the mutex (it holds it during `xEventGroupWaitBits`). -/
theorem wake_on_empty_signal_takes_mutex :
    ui_light_2color_init.AnnounceGroup = 0
    ∧ (dispatcherStep ui_light_2color_init).xMutex = some .dispatcher
    ∧ (wake ui_light_2color_init).callsSince ui_light_2color_init.log.length =
        [.xSemaphoreTake .dispatcher, .xEventGroupWaitBits 0, .xSemaphoreGive .dispatcher] := by
  decide

/-- C7, amended: when no flag is set and the mutex is free, one wake of the dispatch
loop changes nothing but the log: no worker is created, the event group stays
empty, and the mutex, taken for the wait and given back, is free again. -/
theorem wake_on_empty_signal (s : Sys) (hd : s.dispatcher = .atTake) (hm : s.xMutex = none)
    (h0 : s.AnnounceGroup = 0) :
    wake s = { s with log := s.log ++
      [.xSemaphoreTake .dispatcher, .xEventGroupWaitBits 0, .xSemaphoreGive .dispatcher] } := by
  unfold wake run
  simp only [List.replicate, List.foldl, step]
  simp only [dispatcherStep, hd, hm, h0, if_true, Sys.emit]
  cases s
  simp_all [clearOnExit]

/-- The amended C7 statement at the state left by `ui_light_2color_init`. -/
theorem wake_on_empty_signal_witness :
    (wake ui_light_2color_init).tasks = [] ∧ (wake ui_light_2color_init).AnnounceGroup = 0
    ∧ (wake ui_light_2color_init).xMutex = none :=
  ⟨congrArg Sys.tasks (wake_on_empty_signal ui_light_2color_init rfl rfl rfl),
    congrArg Sys.AnnounceGroup (wake_on_empty_signal ui_light_2color_init rfl rfl rfl),
    congrArg Sys.xMutex (wake_on_empty_signal ui_light_2color_init rfl rfl rfl)⟩

/-! ## One transition, tick and wake -/

theorem announcerOf_some_mem (p : Nat) (fn : TaskFn) (h : announcerOf p = some fn) :
    p ∈ [0, 25, 50, 75, 100] := by
  unfold announcerOf at h
  split_ifs at h <;> simp_all

theorem flagged_flag (fn : TaskFn) : flagged fn.flag = [fn] := by
  cases fn <;> decide

theorem flag_subset (fn : TaskFn) : fn.flag &&& All_Task_Bits = fn.flag := by
  cases fn <;> decide

theorem timer_cb_transition (s : Sys) (fn : TaskFn)
    (hfn : announcerOf s.light_set_conf.light_pwm = some fn)
    (hne : s.light_set_conf ≠ s.light_xor) :
    flagsSet ((light_2color_layer_timer_cb true s).callsSince s.log.length) = [fn.flag]
    ∧ spawned ((light_2color_layer_timer_cb true s).callsSince s.log.length) = [fn]
    ∧ (light_2color_layer_timer_cb true s).tasks = s.tasks ++ [⟨fn, .atTake⟩]
    ∧ (light_2color_layer_timer_cb true s).AnnounceGroup = s.AnnounceGroup ||| fn.flag
    ∧ (light_2color_layer_timer_cb true s).xMutex = s.xMutex
    ∧ (light_2color_layer_timer_cb true s).dispatcher = s.dispatcher
    ∧ renderCalls ((light_2color_layer_timer_cb true s).callsSince s.log.length) ≠ []
    ∧ (light_2color_layer_timer_cb true s).log
        = s.log ++ (light_2color_layer_timer_cb true s).callsSince s.log.length := by
  rw [timer_cb_of_ne s hne]
  obtain ⟨a1, a2, a3, a4, a5, a6, a7, a8⟩ := timer_cb_changed_arbiter s
  rw [hfn] at a1 a2 a3 a4
  exact ⟨a1, a2, a3, a4, a5, a6, a7, a8⟩

/-- C3, as stated, fails: in a quiet state (no flag pending, mutex free, earlier
workers ended) with the brightness moved from 100 to 75, the tick and the wake
that consumes the flag create two `Light_75` workers, and when the later one runs
first the sound is played twice. -/
theorem transition_100_to_75_spawns_two :
    dimmedTo75.light_xor.light_pwm = 100 ∧ dimmedTo75.light_set_conf.light_pwm = 75
    ∧ dimmedTo75.AnnounceGroup = 0 ∧ dimmedTo75.xMutex = none
    ∧ flagsSet ((light_2color_layer_timer_cb true dimmedTo75).callsSince dimmedTo75.log.length)
        = [Light_75_ID]
    ∧ spawned ((wake (light_2color_layer_timer_cb true dimmedTo75)).callsSince
        dimmedTo75.log.length) = [.Light_75, .Light_75]
    ∧ played ((run (List.replicate 5 (.worker 3 0) ++ List.replicate 5 (.worker 2 0))
        (wake (light_2color_layer_timer_cb true dimmedTo75))).callsSince dimmedTo75.log.length)
      = [.SOUND_TYPE_LIGHT75, .SOUND_TYPE_LIGHT75] := by
  decide

/-- C3, amended: for a single isolated brightness transition to a step (no flag
pending, mutex free, dispatch loop at the top of its loop), the detecting tick
sets exactly the flag of that step and itself creates one worker for it, and the
wake of `Announce_Light_Lvl` that consumes the flag creates one more worker for it and
leaves the event group empty: two workers for the step are created across the tick
and the wake, and each, run undisturbed from there, plays the sound of the step. -/
theorem transition_spawns_two_workers (s : Sys) (fn : TaskFn)
    (hfn : announcerOf s.light_set_conf.light_pwm = some fn)
    (hne : s.light_set_conf.light_pwm ≠ s.light_xor.light_pwm)
    (h0 : s.AnnounceGroup = 0) (hd : s.dispatcher = .atTake) (hm : s.xMutex = none) :
    flagsSet ((light_2color_layer_timer_cb true s).callsSince s.log.length) = [fn.flag]
    ∧ spawned ((light_2color_layer_timer_cb true s).callsSince s.log.length) = [fn]
    ∧ spawned ((wake (light_2color_layer_timer_cb true s)).callsSince
        (light_2color_layer_timer_cb true s).log.length) = [fn]
    ∧ (wake (light_2color_layer_timer_cb true s)).AnnounceGroup = 0
    ∧ (wake (light_2color_layer_timer_cb true s)).tasks
        = s.tasks ++ [⟨fn, .atTake⟩, ⟨fn, .atTake⟩]
    ∧ (∀ (i : Nat) (result : Int), i = s.tasks.length ∨ i = s.tasks.length + 1 →
        played ((runWorker i result (wake (light_2color_layer_timer_cb true s))).callsSince
          (wake (light_2color_layer_timer_cb true s)).log.length) = [fn.voice]) := by
  have hne' : s.light_set_conf ≠ s.light_xor := fun h => hne (congrArg _ h)
  obtain ⟨a1, a2, a3, a4, a5, a6, _, _⟩ := timer_cb_transition s fn hfn hne'
  rw [h0, Nat.zero_or] at a4
  rw [hm] at a5
  rw [hd] at a6
  obtain ⟨w1, w2, w3, w4, _⟩ := wake_fields _ a6 a5
  have hsub : (light_2color_layer_timer_cb true s).AnnounceGroup &&& All_Task_Bits
      = (light_2color_layer_timer_cb true s).AnnounceGroup := by
    rw [a4]
    exact flag_subset fn
  have htasks : (wake (light_2color_layer_timer_cb true s)).tasks
      = s.tasks ++ [⟨fn, .atTake⟩, ⟨fn, .atTake⟩] := by
    rw [w2, a3, a4, flagged_flag]
    simp
  refine ⟨a1, a2, ?_, ?_, htasks, ?_⟩
  · rw [wake_spawned _ a6 a5, a4, flagged_flag]
  · rw [w3, clearOnExit_of_subset _ hsub]
  · intro i result hi
    apply runWorker_played i result _ fn _ w4
    rw [htasks]
    rcases hi with hi | hi <;> subst hi
    · rw [List.getElem?_append_right (Nat.le_refl _)]
      simp
    · rw [List.getElem?_append_right (Nat.le_succ _)]
      simp

/-- The amended C3 statement at the transition from 100 to 75 in a quiet state. -/
theorem transition_spawns_two_workers_witness :
    (wake (light_2color_layer_timer_cb true dimmedTo75)).tasks
      = dimmedTo75.tasks ++ [⟨.Light_75, .atTake⟩, ⟨.Light_75, .atTake⟩] :=
  (transition_spawns_two_workers dimmedTo75 .Light_75 (by decide) (by decide) (by decide)
    (by decide) (by decide)).2.2.2.2.1

/-! ## A colour toggle -/

theorem clicked_fields (key : Nat) (t : Bool) (s : Sys) :
    (light_2color_event_cb .LV_EVENT_CLICKED key t s).light_set_conf =
        ⟨s.light_set_conf.light_pwm,
          if s.light_set_conf.light_cck = LIGHT_CCK_WARM then LIGHT_CCK_COOL else LIGHT_CCK_WARM⟩
    ∧ (light_2color_event_cb .LV_EVENT_CLICKED key t s).light_xor = s.light_xor
    ∧ (light_2color_event_cb .LV_EVENT_CLICKED key t s).log = s.log := by
  unfold light_2color_event_cb
  simp

theorem timer_cb_changed_sets_src (t : Sys) :
    (t.light_set_conf.light_pwm = 100 →
      Call.lv_img_set_src .img_light_pwm_100 img_pwm_100[t.light_set_conf.light_cck % 256]?
        ∈ (timer_cb_changed t).callsSince t.log.length)
    ∧ (t.light_set_conf.light_pwm = 75 →
      Call.lv_img_set_src .img_light_pwm_75 img_pwm_75[t.light_set_conf.light_cck % 256]?
        ∈ (timer_cb_changed t).callsSince t.log.length)
    ∧ (t.light_set_conf.light_pwm = 50 →
      Call.lv_img_set_src .img_light_pwm_50 img_pwm_50[t.light_set_conf.light_cck % 256]?
        ∈ (timer_cb_changed t).callsSince t.log.length)
    ∧ (t.light_set_conf.light_pwm = 25 →
      Call.lv_img_set_src .img_light_pwm_25 img_pwm_25[t.light_set_conf.light_cck % 256]?
        ∈ (timer_cb_changed t).callsSince t.log.length) := by
  unfold timer_cb_changed timer_cb_before_switch switch_light_pwm
  refine ⟨?_, ?_, ?_, ?_⟩ <;> intro h <;> simp [h, Sys.callsSince]

/-- C2, as stated, fails: after the first tick (brightness 100, warm, shadow copy
equal to the live state) a click leaves the brightness at 100 and the next tick
sets the flag `Light_100_ID` and creates a `Light_100` worker. -/
theorem colour_toggle_sets_flag :
    firstTick.light_xor = firstTick.light_set_conf
    ∧ (light_2color_event_cb .LV_EVENT_CLICKED 0 true firstTick).light_set_conf.light_pwm
        = firstTick.light_set_conf.light_pwm
    ∧ flagsSet ((light_2color_layer_timer_cb true
          (light_2color_event_cb .LV_EVENT_CLICKED 0 true firstTick)).callsSince
            firstTick.log.length) = [Light_100_ID]
    ∧ spawned ((light_2color_layer_timer_cb true
          (light_2color_event_cb .LV_EVENT_CLICKED 0 true firstTick)).callsSince
            firstTick.log.length) = [.Light_100] := by
  decide

/-- C2, amended: in a state whose shadow copy equals the live state and whose
brightness is one of the five steps, a click toggles the colour temperature and
leaves the brightness unchanged, and the following tick calls the LED with the
channels of the new temperature, makes LVGL calls, and also sets the flag of the
current brightness and creates one worker for it. -/
theorem colour_toggle_is_announced (s : Sys) (key : Nat) (timed_out : Bool) (fn : TaskFn)
    (heq : s.light_xor = s.light_set_conf)
    (hfn : announcerOf s.light_set_conf.light_pwm = some fn) :
    (light_2color_event_cb .LV_EVENT_CLICKED key timed_out s).light_set_conf.light_pwm
        = s.light_set_conf.light_pwm
    ∧ (light_2color_event_cb .LV_EVENT_CLICKED key timed_out s).light_set_conf.light_cck
        = (if s.light_set_conf.light_cck = LIGHT_CCK_WARM then LIGHT_CCK_COOL
            else LIGHT_CCK_WARM)
    ∧ flagsSet ((light_2color_layer_timer_cb true
          (light_2color_event_cb .LV_EVENT_CLICKED key timed_out s)).callsSince s.log.length)
        = [fn.flag]
    ∧ spawned ((light_2color_layer_timer_cb true
          (light_2color_event_cb .LV_EVENT_CLICKED key timed_out s)).callsSince s.log.length)
        = [fn]
    ∧ ledCalls ((light_2color_layer_timer_cb true
          (light_2color_event_cb .LV_EVENT_CLICKED key timed_out s)).callsSince s.log.length)
        = [(0xFF * s.light_set_conf.light_pwm / 100, 0xFF * s.light_set_conf.light_pwm / 100,
            (if s.light_set_conf.light_cck = LIGHT_CCK_WARM then 0xFF else 0x33)
              * s.light_set_conf.light_pwm / 100)]
    ∧ renderCalls ((light_2color_layer_timer_cb true
          (light_2color_event_cb .LV_EVENT_CLICKED key timed_out s)).callsSince s.log.length)
        ≠ []
    ∧ (s.light_set_conf.light_pwm = 100 →
        Call.lv_img_set_src .img_light_pwm_100
          (some (if s.light_set_conf.light_cck = LIGHT_CCK_WARM then .light_cool_100
            else .light_warm_100))
        ∈ (light_2color_layer_timer_cb true
          (light_2color_event_cb .LV_EVENT_CLICKED key timed_out s)).callsSince s.log.length)
    ∧ (s.light_set_conf.light_pwm = 75 →
        Call.lv_img_set_src .img_light_pwm_75
          (some (if s.light_set_conf.light_cck = LIGHT_CCK_WARM then .light_cool_75
            else .light_warm_75))
        ∈ (light_2color_layer_timer_cb true
          (light_2color_event_cb .LV_EVENT_CLICKED key timed_out s)).callsSince s.log.length)
    ∧ (s.light_set_conf.light_pwm = 50 →
        Call.lv_img_set_src .img_light_pwm_50
          (some (if s.light_set_conf.light_cck = LIGHT_CCK_WARM then .light_cool_50
            else .light_warm_50))
        ∈ (light_2color_layer_timer_cb true
          (light_2color_event_cb .LV_EVENT_CLICKED key timed_out s)).callsSince s.log.length)
    ∧ (s.light_set_conf.light_pwm = 25 →
        Call.lv_img_set_src .img_light_pwm_25
          (some (if s.light_set_conf.light_cck = LIGHT_CCK_WARM then .light_cool_25
            else .light_warm_25))
        ∈ (light_2color_layer_timer_cb true
          (light_2color_event_cb .LV_EVENT_CLICKED key timed_out s)).callsSince s.log.length) := by
  obtain ⟨c1, c2, c3⟩ := clicked_fields key timed_out s
  have hp := announcerOf_some_mem _ _ hfn
  have hne : (light_2color_event_cb .LV_EVENT_CLICKED key timed_out s).light_set_conf
      ≠ (light_2color_event_cb .LV_EVENT_CLICKED key timed_out s).light_xor := by
    rw [c1, c2, heq]
    intro h
    have := congrArg light_set_attribute_t.light_cck h
    simp only [LIGHT_CCK_WARM, LIGHT_CCK_COOL] at this
    split_ifs at this <;> omega
  have hfn' : announcerOf
      (light_2color_event_cb .LV_EVENT_CLICKED key timed_out s).light_set_conf.light_pwm
        = some fn := by
    rw [c1]
    exact hfn
  obtain ⟨a1, a2, _, _, _, _, a7, _⟩ := timer_cb_transition _ fn hfn' hne
  have hled := timer_cb_changed_ledCalls (light_2color_event_cb .LV_EVENT_CLICKED key timed_out s)
  rw [← timer_cb_of_ne _ hne, c1] at hled
  rw [c3] at a1 a2 a7 hled
  obtain ⟨r1, r2, r3, r4⟩ :=
    timer_cb_changed_sets_src (light_2color_event_cb .LV_EVENT_CLICKED key timed_out s)
  rw [← timer_cb_of_ne _ hne, c1, c3] at r1 r2 r3 r4
  have hsrc : ∀ (warm cool : ImgSrc),
      [warm, cool][(if s.light_set_conf.light_cck = LIGHT_CCK_WARM then LIGHT_CCK_COOL
          else LIGHT_CCK_WARM) % 256]?
        = some (if s.light_set_conf.light_cck = LIGHT_CCK_WARM then cool else warm) := by
    intro warm cool
    by_cases hc : s.light_set_conf.light_cck = LIGHT_CCK_WARM
    · rw [if_pos hc, if_pos hc]
      rfl
    · rw [if_neg hc, if_neg hc]
      rfl
  simp only [img_pwm_100, img_pwm_75, img_pwm_50, img_pwm_25, hsrc] at r1 r2 r3 r4
  refine ⟨by rw [c1], by rw [c1], a1, a2, ?_, a7, r1, r2, r3, r4⟩
  rw [hled]
  by_cases hc : s.light_set_conf.light_cck = LIGHT_CCK_WARM
  · obtain ⟨h1, h2, h3⟩ := RGB_color_cool_unpack _ hp
    simp only [hc, if_true, h1, h2, h3]
  · obtain ⟨h1, h2, h3⟩ := RGB_color_warm_unpack _ hp
    simp only [hc, if_false, h1, h2, h3]

/-- The amended C2 statement at the state after the first tick. -/
theorem colour_toggle_is_announced_witness :
    ledCalls ((light_2color_layer_timer_cb true
        (light_2color_event_cb .LV_EVENT_CLICKED 0 true firstTick)).callsSince
          firstTick.log.length) = [(255, 255, 255)] :=
  (colour_toggle_is_announced firstTick 0 true .Light_100 (by decide) (by decide)).2.2.2.2.1

/-! ## Mutual exclusion of the audio call -/

theorem disciplined_append (tasks l : List Worker) (m : Option TaskRef) (d : DispatchPC)
    (h : Disciplined tasks m d) (hl : ∀ w ∈ l, w.pc = .atTake) :
    Disciplined (tasks ++ l) m d := by
  refine ⟨?_, h.2⟩
  intro i w hw hc
  by_cases hi : i < tasks.length
  · rw [List.getElem?_append_left hi] at hw
    exact h.1 i w hw hc
  · rw [List.getElem?_append_right (Nat.le_of_not_lt hi)] at hw
    have hmem : w ∈ l := List.getElem?_mem hw
    rw [hl w hmem] at hc
    exact absurd hc (by decide)

theorem getElem?_setPC (tasks : List Worker) (k i : Nat) (pc : WorkerPC) (w : Worker)
    (hw : (tasks.modify (fun w => { w with pc := pc }) k)[i]? = some w) :
    (i = k ∧ w.pc = pc) ∨ (i ≠ k ∧ tasks[i]? = some w) := by
  by_cases hik : i = k
  · subst hik
    rw [List.getElem?_modify_eq] at hw
    cases hv : tasks[i]? with
    | none => rw [hv] at hw; exact absurd hw (by simp)
    | some v =>
      rw [hv] at hw
      simp only [Option.map_eq_map, Option.map_some', Option.some.injEq] at hw
      exact Or.inl ⟨rfl, by rw [← hw]⟩
  · rw [List.getElem?_modify_ne _ _ (Ne.symm hik)] at hw
    exact Or.inr ⟨hik, hw⟩

theorem disciplined_setPC_idle (tasks : List Worker) (m : Option TaskRef) (d : DispatchPC)
    (k : Nat) (pc : WorkerPC) (h : Disciplined tasks m d) (hpc : pc.holding = false) :
    Disciplined (tasks.modify (fun w => { w with pc := pc }) k) m d := by
  refine ⟨?_, h.2⟩
  intro i w hw hc
  rcases getElem?_setPC tasks k i pc w hw with ⟨_, hp⟩ | ⟨_, hw'⟩
  · rw [hp, hpc] at hc
    exact absurd hc (by decide)
  · exact h.1 i w hw' hc

theorem disciplined_setPC_holder (tasks : List Worker) (d : DispatchPC)
    (k : Nat) (pc : WorkerPC) (h : Disciplined tasks (some (.worker k)) d) :
    Disciplined (tasks.modify (fun w => { w with pc := pc }) k) (some (.worker k)) d := by
  refine ⟨?_, h.2⟩
  intro i w hw hc
  rcases getElem?_setPC tasks k i pc w hw with ⟨hik, _⟩ | ⟨_, hw'⟩
  · rw [hik]
  · exact h.1 i w hw' hc

theorem disciplined_take (tasks : List Worker) (d : DispatchPC) (k : Nat) (pc : WorkerPC)
    (h : Disciplined tasks none d) :
    Disciplined (tasks.modify (fun w => { w with pc := pc }) k) (some (.worker k)) d := by
  refine ⟨?_, ?_⟩
  · intro i w hw hc
    rcases getElem?_setPC tasks k i pc w hw with ⟨hik, _⟩ | ⟨_, hw'⟩
    · rw [hik]
    · exact absurd (h.1 i w hw' hc) (by simp)
  · intro hd
    exact absurd (h.2 hd) (by simp)

theorem disciplined_give (tasks : List Worker) (d : DispatchPC) (k : Nat) (pc : WorkerPC)
    (h : Disciplined tasks (some (.worker k)) d) (hpc : pc.holding = false) :
    Disciplined (tasks.modify (fun w => { w with pc := pc }) k) none d := by
  refine ⟨?_, ?_⟩
  · intro i w hw hc
    rcases getElem?_setPC tasks k i pc w hw with ⟨_, hp⟩ | ⟨hik, hw'⟩
    · rw [hp, hpc] at hc
      exact absurd hc (by decide)
    · have := h.1 i w hw' hc
      simp only [Option.some.injEq, TaskRef.worker.injEq] at this
      exact absurd this.symm hik
  · intro hd
    exact absurd (h.2 hd) (by simp)

theorem disciplined_dispatcher (tasks : List Worker) (m m' : Option TaskRef) (d d' : DispatchPC)
    (h : Disciplined tasks m d) (hm : m = none ∨ m = some .dispatcher)
    (hm' : d' ≠ .atTake → m' = some .dispatcher) :
    (∀ (i : Nat) (w : Worker), tasks[i]? = some w → w.pc.holding = true → False)
    ∧ (Disciplined tasks m' d') := by
  have hno : ∀ (i : Nat) (w : Worker), tasks[i]? = some w → w.pc.holding = true → False := by
    intro i w hw hc
    have := h.1 i w hw hc
    rcases hm with hm | hm <;> rw [hm] at this <;> exact absurd this (by simp)
  exact ⟨hno, fun i w hw hc => (hno i w hw hc).elim, hm'⟩

theorem event_cb_arbiter (code : lv_event_code_t) (key : Nat) (t : Bool) (s : Sys) :
    (light_2color_event_cb code key t s).tasks = s.tasks
    ∧ (light_2color_event_cb code key t s).xMutex = s.xMutex
    ∧ (light_2color_event_cb code key t s).dispatcher = s.dispatcher := by
  unfold light_2color_event_cb
  split_ifs <;> simp

theorem timer_cb_mutexInv (due : Bool) (s : Sys) (h : MutexInv s) :
    MutexInv (light_2color_layer_timer_cb due s) := by
  unfold light_2color_layer_timer_cb
  split_ifs
  · obtain ⟨_, _, a3, _, a5, a6, _, _⟩ := timer_cb_changed_arbiter s
    unfold MutexInv
    rw [a3, a5, a6]
    apply disciplined_append _ _ _ _ h
    intro w hw
    simp only [List.mem_map] at hw
    obtain ⟨fn, _, rfl⟩ := hw
    rfl
  · exact h
  · exact h

theorem vTaskDelete_mutexInv (i : Nat) (hv : Option Nat) (s : Sys) (h : MutexInv s) :
    MutexInv (vTaskDelete i hv s) := by
  unfold vTaskDelete
  split
  · exact disciplined_setPC_idle _ _ _ i .deleted h rfl
  · split_ifs
    · exact disciplined_setPC_idle _ _ _ i .deleted h rfl
    · exact disciplined_setPC_idle _ _ _ i .returned
        (disciplined_setPC_idle _ _ _ _ .deleted h rfl) rfl

theorem workerStep_mutexInv (i : Nat) (r : Int) (s : Sys) (h : MutexInv s) :
    MutexInv (workerStep i r s) := by
  unfold workerStep
  split
  · exact h
  · rename_i w hw
    have hold : w.pc.holding = true → s.xMutex = some (.worker i) := h.1 i w hw
    split
    · split_ifs with hm
      · unfold MutexInv at h ⊢
        rw [hm] at h
        exact disciplined_take _ _ i .atAudio h
      · exact h
    · rename_i hpc
      have hm := hold (by rw [hpc]; rfl)
      unfold MutexInv at h ⊢
      rw [hm] at h
      simp only [Sys.setPC, Sys.emit, hm]
      exact disciplined_setPC_holder _ _ i .inAudio h
    · rename_i hpc
      have hm := hold (by rw [hpc]; rfl)
      unfold MutexInv at h ⊢
      rw [hm] at h
      simp only [Sys.setPC, hm]
      exact disciplined_setPC_holder _ _ i .atGive h
    · rename_i hpc
      have hm := hold (by rw [hpc]; rfl)
      unfold MutexInv at h ⊢
      rw [hm] at h
      exact disciplined_give _ _ i .atDelete h rfl
    · exact vTaskDelete_mutexInv i _ s h
    · exact h
    · exact h

theorem dispatcherStep_mutexInv (s : Sys) (h : MutexInv s) : MutexInv (dispatcherStep s) := by
  unfold dispatcherStep
  have hcreate : ∀ (fn : TaskFn) (hv : HandleVar) (d : DispatchPC),
      s.xMutex = some .dispatcher → d ≠ .atTake →
      MutexInv (xTaskCreate fn hv { s with dispatcher := d }) := by
    intro fn hv d hm hd
    unfold MutexInv at h ⊢
    simp only [xTaskCreate, Sys.emit, setHandle_tasks, setHandle_xMutex, setHandle_dispatcher]
    apply disciplined_append
    · exact (disciplined_dispatcher _ _ _ _ d h (Or.inr hm) (fun _ => hm)).2
    · intro w hw
      rw [List.mem_singleton.mp hw]
  have hmove : ∀ (d : DispatchPC), s.xMutex = some .dispatcher →
      MutexInv { s with dispatcher := d } := by
    intro d hm
    exact (disciplined_dispatcher _ _ _ _ d h (Or.inr hm) (fun _ => hm)).2
  split
  · split_ifs with hm
    · exact (disciplined_dispatcher _ _ _ _ .atWait h (Or.inl hm) (fun _ => rfl)).2
    · exact h
  · rename_i hd
    have hm := h.2 (by rw [hd]; simp)
    exact (disciplined_dispatcher _ _ _ _ (.if0 s.AnnounceGroup) h (Or.inr hm) (fun _ => hm)).2
  all_goals
    rename_i hd
    have hm := h.2 (by rw [hd]; simp)
    first
      | (split_ifs
         · exact hcreate _ _ _ hm (by simp)
         · exact hmove _ hm)
      | exact (disciplined_dispatcher _ _ _ _ .atTake h (Or.inr hm) (fun hne => absurd rfl hne)).2

theorem step_mutexInv (s : Sys) (l : Label) (h : MutexInv s) : MutexInv (step s l) := by
  cases l with
  | event code key t =>
    obtain ⟨e1, e2, e3⟩ := event_cb_arbiter code key t s
    unfold MutexInv step
    rw [e1, e2, e3]
    exact h
  | timer due => exact timer_cb_mutexInv due s h
  | worker i r => exact workerStep_mutexInv i r s h
  | dispatcher => exact dispatcherStep_mutexInv s h
  | setBits bits => exact h
  | create fn =>
    unfold MutexInv step
    simp only [xTaskCreate, Sys.emit, setHandle_tasks, setHandle_xMutex, setHandle_dispatcher]
    apply disciplined_append _ _ _ _ h
    intro w hw
    rw [List.mem_singleton.mp hw]

theorem run_mutexInv (schedule : List Label) : MutexInv (run schedule ui_light_2color_init) :=
  run_invariant MutexInv step_mutexInv schedule ui_light_2color_init
    ⟨fun i w hw _ => absurd hw (by simp [ui_light_2color_init]), fun hd => absurd rfl hd⟩

theorem mem_inAudio (s : Sys) (i : Nat) :
    i ∈ inAudio s ↔ ∃ w, s.tasks[i]? = some w ∧ w.pc = .inAudio := by
  unfold inAudio
  rw [List.mem_filter, List.mem_range]
  constructor
  · rintro ⟨_, h⟩
    cases hw : s.tasks[i]? with
    | none => rw [hw] at h; exact absurd h (by simp)
    | some w =>
      rw [hw] at h
      exact ⟨w, rfl, by simpa using h⟩
  · rintro ⟨w, hw, hpc⟩
    refine ⟨?_, ?_⟩
    · obtain ⟨hlt, _⟩ := List.getElem?_eq_some.mp hw
      exact hlt
    · rw [hw]
      simpa using hpc

theorem inAudio_nodup (s : Sys) : (inAudio s).Nodup :=
  List.Nodup.filter _ (List.nodup_range _)

theorem mutexInv_holder (s : Sys) (h : MutexInv s) (i : Nat) (hi : i ∈ inAudio s) :
    s.xMutex = some (.worker i) := by
  obtain ⟨w, hw, hpc⟩ := (mem_inAudio s i).mp hi
  exact h.1 i w hw (by rw [hpc]; rfl)

theorem mutexInv_length (s : Sys) (h : MutexInv s) : (inAudio s).length ≤ 1 := by
  have hnd := inAudio_nodup s
  have hall := mutexInv_holder s h
  generalize inAudio s = l at hnd hall
  match l, hnd, hall with
  | [], _, _ => simp
  | [_], _, _ => simp
  | a :: b :: _, hnd, hall =>
    have ha := hall a (by simp)
    have hb := hall b (by simp)
    rw [ha] at hb
    simp only [Option.some.injEq, TaskRef.worker.injEq] at hb
    simp [hb] at hnd

/-- C9: after every schedule from the state left by `ui_light_2color_init`, whatever
the interleaving of input events, ticks (also split into their two FreeRTOS calls),
calls of the dispatch loop and calls of the workers, with any results of the audio
call, at most one worker is inside `audio_handle_info`, and a worker that is inside it
is the holder of `xMutex`. -/
theorem at_most_one_playback (schedule : List Label) :
    (inAudio (run schedule ui_light_2color_init)).length ≤ 1
    ∧ ∀ i, i ∈ inAudio (run schedule ui_light_2color_init) →
        (run schedule ui_light_2color_init).xMutex = some (.worker i) :=
  ⟨mutexInv_length _ (run_mutexInv schedule), mutexInv_holder _ (run_mutexInv schedule)⟩

/-- The C9 statement at the schedule `twoAnnouncers`: the worker created by the tick is
inside `audio_handle_info` and holds the mutex, the worker created by the wake is still
blocked in `xSemaphoreTake`. -/
theorem at_most_one_playback_witness :
    inAudio (run twoAnnouncers ui_light_2color_init) = [0]
    ∧ (run twoAnnouncers ui_light_2color_init).tasks
        = [⟨.Light_100, .inAudio⟩, ⟨.Light_100, .atTake⟩]
    ∧ (run twoAnnouncers ui_light_2color_init).xMutex = some (.worker 0) :=
  ⟨by decide, by decide, (at_most_one_playback twoAnnouncers).2 0 (by decide)⟩

/-! ## A worker deleted by its sibling -/

theorem getElem?_append_of_some (tasks l : List Worker) (k : Nat) (w : Worker)
    (h : tasks[k]? = some w) : (tasks ++ l)[k]? = some w := by
  obtain ⟨hlt, _⟩ := List.getElem?_eq_some.mp h
  rw [List.getElem?_append_left hlt]
  exact h

theorem getElem?_setPC_deleted (tasks : List Worker) (j k : Nat)
    (h : ∃ w, tasks[k]? = some w ∧ w.pc = .deleted) :
    ∃ w, (tasks.modify (fun w => { w with pc := .deleted }) j)[k]? = some w ∧ w.pc = .deleted := by
  obtain ⟨w, hw, hpc⟩ := h
  by_cases hjk : j = k
  · subst hjk
    exact ⟨{ w with pc := .deleted }, by simp [hw], rfl⟩
  · exact ⟨w, by rw [List.getElem?_modify_ne _ _ hjk]; exact hw, hpc⟩

theorem getElem?_setPC_other (tasks : List Worker) (i k : Nat) (pc : WorkerPC) (hik : i ≠ k)
    (h : ∃ w, tasks[k]? = some w ∧ w.pc = .deleted) :
    ∃ w, (tasks.modify (fun w => { w with pc := pc }) i)[k]? = some w ∧ w.pc = .deleted := by
  obtain ⟨w, hw, hpc⟩ := h
  exact ⟨w, by rw [List.getElem?_modify_ne _ _ hik]; exact hw, hpc⟩

theorem vTaskDelete_stranded (i : Nat) (hv : Option Nat) (s : Sys) (hi : i ≠ 1)
    (h : Stranded s) : Stranded (vTaskDelete i hv s) := by
  refine ⟨vTaskDelete_mutexInv i hv s h.1, by rw [vTaskDelete_xMutex]; exact h.2.1, ?_⟩
  unfold vTaskDelete
  split
  · exact getElem?_setPC_other _ i 1 _ hi h.2.2
  · split_ifs
    · exact getElem?_setPC_other _ i 1 _ hi h.2.2
    · exact getElem?_setPC_other _ i 1 _ hi (getElem?_setPC_deleted _ _ 1 h.2.2)

theorem workerStep_stranded (i : Nat) (r : Int) (s : Sys) (h : Stranded s) :
    Stranded (workerStep i r s) := by
  obtain ⟨hinv, hm, w1, hw1, hpc1⟩ := h
  have hfree : s.xMutex ≠ none := by rw [hm]; simp
  have hold : ∀ w, s.tasks[i]? = some w → w.pc.holding = true → False := by
    intro w hw hc
    have := hinv.1 i w hw hc
    rw [hm] at this
    simp only [Option.some.injEq, TaskRef.worker.injEq] at this
    subst this
    rw [hw1] at hw
    rw [← Option.some.inj hw, hpc1] at hc
    exact absurd hc (by decide)
  unfold workerStep
  split
  · exact ⟨hinv, hm, w1, hw1, hpc1⟩
  · rename_i w hw
    split
    · rw [if_neg hfree]
      exact ⟨hinv, hm, w1, hw1, hpc1⟩
    · rename_i hpc
      exact (hold w hw (by rw [hpc]; rfl)).elim
    · rename_i hpc
      exact (hold w hw (by rw [hpc]; rfl)).elim
    · rename_i hpc
      exact (hold w hw (by rw [hpc]; rfl)).elim
    · rename_i hpc
      have hi : i ≠ 1 := by
        intro hi
        subst hi
        rw [hw1] at hw
        rw [← Option.some.inj hw, hpc1] at hpc
        exact absurd hpc (by decide)
      exact vTaskDelete_stranded i _ s hi ⟨hinv, hm, w1, hw1, hpc1⟩
    · exact ⟨hinv, hm, w1, hw1, hpc1⟩
    · exact ⟨hinv, hm, w1, hw1, hpc1⟩

theorem dispatcherStep_stranded (s : Sys) (h : Stranded s) : Stranded (dispatcherStep s) := by
  obtain ⟨hinv, hm, hw⟩ := h
  have hfree : s.xMutex ≠ none := by rw [hm]; simp
  have hd : s.dispatcher = .atTake := by
    by_contra hne
    have := hinv.2 hne
    rw [hm] at this
    exact absurd this (by simp)
  unfold dispatcherStep
  rw [hd]
  simp only [if_neg hfree]
  exact ⟨hinv, hm, hw⟩

theorem step_stranded (s : Sys) (l : Label) (h : Stranded s) : Stranded (step s l) := by
  refine ⟨step_mutexInv s l h.1, ?_⟩
  cases l with
  | event code key t =>
    obtain ⟨e1, e2, _⟩ := event_cb_arbiter code key t s
    simp only [step]
    rw [e1, e2]
    exact h.2
  | timer due =>
    simp only [step]
    unfold light_2color_layer_timer_cb
    split_ifs
    · obtain ⟨_, _, a3, _, a5, _, _, _⟩ := timer_cb_changed_arbiter s
      rw [a3, a5]
      obtain ⟨w, hw, hpc⟩ := h.2.2
      exact ⟨h.2.1, w, getElem?_append_of_some _ _ 1 w hw, hpc⟩
    · exact h.2
    · exact h.2
  | worker i r => exact (workerStep_stranded i r s h).2
  | dispatcher => exact (dispatcherStep_stranded s h).2
  | setBits bits => exact h.2
  | create fn =>
    simp only [step, xTaskCreate, Sys.emit, setHandle_tasks, setHandle_xMutex]
    obtain ⟨w, hw, hpc⟩ := h.2.2
    exact ⟨h.2.1, w, getElem?_append_of_some _ _ 1 w hw, hpc⟩

theorem stranded_inAudio (s : Sys) (h : Stranded s) : inAudio s = [] := by
  rw [List.eq_nil_iff_forall_not_mem]
  intro i hi
  have hm := mutexInv_holder s h.1 i hi
  rw [h.2.1] at hm
  simp only [Option.some.injEq, TaskRef.worker.injEq] at hm
  subst hm
  obtain ⟨w, hw, hpc⟩ := (mem_inAudio s 1).mp hi
  obtain ⟨w1, hw1, hpc1⟩ := h.2.2
  rw [hw1] at hw
  rw [← Option.some.inj hw, hpc1] at hpc
  exact absurd hpc (by decide)

/-- C8: the code breaks the claim at the schedule `clickWhilePlaying`.  Worker 0 makes its
four calls, but its `vTaskDelete(xtaskHandle5)` names worker 1, because the second
`xTaskCreate` overwrote the handle variable.  Worker 1 is deleted inside
`audio_handle_info`, after its `xSemaphoreTake` and before any `xSemaphoreGive`; worker 0
has run off the end of its task function instead of deleting itself.  The mutex
then stays held by the deleted worker under every later schedule, and no worker
enters `audio_handle_info` again. -/
theorem sibling_delete_strands_mutex (later : List Label) :
    (run clickWhilePlaying ui_light_2color_init).tasks
        = [⟨.Light_100, .returned⟩, ⟨.Light_100, .deleted⟩]
    ∧ callsOf (.worker 0) (run clickWhilePlaying ui_light_2color_init).log
        = [.xSemaphoreTake (.worker 0), .audio_handle_info (.worker 0) .SOUND_TYPE_LIGHT100,
            .xSemaphoreGive (.worker 0), .vTaskDelete (.worker 0) (some 1)]
    ∧ callsOf (.worker 1) (run clickWhilePlaying ui_light_2color_init).log
        = [.xSemaphoreTake (.worker 1), .audio_handle_info (.worker 1) .SOUND_TYPE_LIGHT100]
    ∧ (run clickWhilePlaying ui_light_2color_init).xMutex = some (.worker 1)
    ∧ (run later (run clickWhilePlaying ui_light_2color_init)).xMutex = some (.worker 1)
    ∧ inAudio (run later (run clickWhilePlaying ui_light_2color_init)) = [] := by
  have h0 : Stranded (run clickWhilePlaying ui_light_2color_init) :=
    ⟨run_mutexInv clickWhilePlaying, by decide, ⟨.Light_100, .deleted⟩, by decide, rfl⟩
  have hl : Stranded (run later (run clickWhilePlaying ui_light_2color_init)) :=
    run_invariant Stranded step_stranded later _ h0
  exact ⟨by decide, by decide, by decide, by decide, hl.2.1, stranded_inAudio _ hl⟩

end Light2Color
